import Mathlib

/-!
A shallow embedding of the `tcg-pocket-rl` game engine (a Pokémon TCG Pocket
variant written in Rust) together with proofs about its behaviour.

Each definition mirrors one item of the Rust source
(`src/engine/src/...`); doc comments name the function it embeds.
Machine integers (`u32`, `usize`) are modelled as `Nat`: the engine only
adds small bounded quantities, never overflows, and `saturating_sub`
coincides with truncated `Nat` subtraction.  `Vec::pop` removes the last
element, `Vec::remove(i)` erases at index `i`, `Vec::drain(..n)` takes a
prefix, and mutation is modelled by explicit state passing.

The external `rand::StdRng` is modelled as an abstract deterministic
stream of naturals (`GameRng.bits`); each primitive draw of the generator
consumes one stream element.  No claim below depends on the concrete
distribution of the generator, only on its determinism and on shuffles
being permutations.
-/

namespace TCG

/-- `EnergyType` from `src/engine/src/data/card.rs`. -/
inductive EnergyType : Type where
  | Grass | Fire | Water | Lightning | Psychic
  | Fighting | Darkness | Metal | Dragon | Colorless
deriving DecidableEq, Repr

/-- `EnergyType::concrete_types` from `src/engine/src/data/card.rs`:
all energy types except `Colorless`. -/
def EnergyType.concrete_types : List EnergyType :=
  [.Grass, .Fire, .Water, .Lightning, .Psychic,
   .Fighting, .Darkness, .Metal, .Dragon]

/-- `Stage` from `src/engine/src/data/card.rs`. -/
inductive Stage : Type where
  | Basic | Stage1 | Stage2
deriving DecidableEq, Repr

/-- `CardType` from `src/engine/src/data/card.rs`. -/
inductive CardType : Type where
  | Pokemon | Supporter | Item | Tool | Fossil
deriving DecidableEq, Repr

/-- `Attack` from `src/engine/src/data/card.rs`. -/
structure Attack : Type where
  name : String
  energy_cost : List EnergyType
  damage : Nat
  effect : Option String
deriving DecidableEq, Repr

/-- `Ability` from `src/engine/src/data/card.rs`. -/
structure Ability : Type where
  name : String
  description : String
deriving DecidableEq, Repr

/-- `Card` from `src/engine/src/data/card.rs`. -/
structure Card : Type where
  id : String
  name : String
  card_type : CardType
  hp : Option Nat
  stage : Option Stage
  energy_type : Option EnergyType
  weakness : Option EnergyType
  retreat_cost : Option Nat
  attacks : List Attack
  ability : Option Ability
  evolves_from : Option String
  is_ex : Bool
  effect : Option String
  set_name : Option String
  card_number : Option Nat
  rarity : Option String
deriving DecidableEq, Repr

/-- `Card::is_pokemon`. -/
def Card.is_pokemon (c : Card) : Bool :=
  c.card_type = CardType.Pokemon

/-- `Card::is_basic_pokemon`. -/
def Card.is_basic_pokemon (c : Card) : Bool :=
  c.is_pokemon && c.stage = some Stage.Basic

/-- `Card::is_evolution`. -/
def Card.is_evolution (c : Card) : Bool :=
  c.is_pokemon && (c.stage = some Stage.Stage1 || c.stage = some Stage.Stage2)

/-- `Card::is_trainer`. -/
def Card.is_trainer (c : Card) : Bool :=
  c.card_type = CardType.Supporter || c.card_type = CardType.Item ||
    c.card_type = CardType.Tool

/-- The loop in `Card::can_use_attack` that satisfies the specific
(non-Colorless) cost entries: scan the cost list; for every non-Colorless
entry remove the first equal element of `remaining` (failure when there is
none); `Colorless` entries are skipped.  Returns the leftover energies. -/
def pay_concrete : List EnergyType → List EnergyType → Option (List EnergyType)
  | [], remaining => some remaining
  | req :: rest, remaining =>
    if req = EnergyType.Colorless then pay_concrete rest remaining
    else if remaining.contains req then pay_concrete rest (remaining.erase req)
    else none

/-- `Card::can_use_attack` from `src/engine/src/data/card.rs`: the attack at
`attack_idx` is payable by the attached energies. -/
def Card.can_use_attack (c : Card) (attack_idx : Nat)
    (attached : List EnergyType) : Bool :=
  match c.attacks.get? attack_idx with
  | none => false
  | some attack =>
    match pay_concrete attack.energy_cost attached with
    | none => false
    | some remaining =>
      let colorless_needed :=
        attack.energy_cost.count EnergyType.Colorless
      colorless_needed ≤ remaining.length

/-- The multiset-matching reference definition of attack-cost
satisfiability, following the spec's words (§4.E): every non-Colorless
element of the cost can be matched against a distinct equal element of the
attached multiset (`<+~`, sub-permutation), and the number of attached
elements left unmatched is at least the count of Colorless entries. -/
def payable_ref (cost attached : List EnergyType) : Prop :=
  List.Subperm (cost.filter (fun e => e ≠ EnergyType.Colorless)) attached ∧
    cost.count EnergyType.Colorless ≤
      attached.length - (cost.filter (fun e => e ≠ EnergyType.Colorless)).length

instance (cost attached : List EnergyType) : Decidable (payable_ref cost attached) := by
  unfold payable_ref
  infer_instance

/-- `Deck` from `src/engine/src/data/deck.rs` (constructed here only through
`Deck::new_unchecked`, which stores the card list as given). -/
structure Deck : Type where
  cards : List Card
deriving DecidableEq, Repr

/-- `MAX_BENCH` from `src/engine/src/game/state.rs`. -/
def MAX_BENCH : Nat := 3
/-- `PRIZE_COUNT` from `src/engine/src/game/state.rs`. -/
def PRIZE_COUNT : Nat := 3
/-- `STARTING_HAND` from `src/engine/src/game/state.rs`. -/
def STARTING_HAND : Nat := 5

/-- `TurnPhase` from `src/engine/src/game/state.rs`. -/
inductive TurnPhase : Type where
  | Setup | DrawCard | Main | Attack | BetweenTurns | EffectChoice | GameOver
deriving DecidableEq, Repr

/-- `StatusCondition` from `src/engine/src/game/state.rs`. -/
inductive StatusCondition : Type where
  | Poisoned | Burned | Asleep | Paralyzed | Confused
deriving DecidableEq, Repr

/-- `TempFlags` from `src/engine/src/game/state.rs`. -/
structure TempFlags : Type where
  prevent_damage_amount : Nat
  cant_retreat : Bool
  bonus_damage : Nat
  used_ability : Bool
deriving DecidableEq, Repr

/-- `TempFlags::default()` (the derived `Default`). -/
def TempFlags.default : TempFlags :=
  { prevent_damage_amount := 0, cant_retreat := false,
    bonus_damage := 0, used_ability := false }

/-- The fields of `PlayedCard` from `src/engine/src/game/state.rs`,
parametrised by the type of the `evolved_from` back-pointer (the Rust
field is `Option<Box<PlayedCard>>`). -/
structure PCData (P : Type) : Type where
  card : Card
  attached_energy : List EnergyType
  damage_counters : Nat
  status_conditions : List StatusCondition
  evolved_from : Option P
  turn_played : Nat
  tool : Option Card
  temp_flags : TempFlags

/-- `PlayedCard` from `src/engine/src/game/state.rs`: a Pokémon on the
board, owning its pre-evolution chain through `evolved_from`. -/
inductive PlayedCard : Type where
  | mk (data : PCData PlayedCard) : PlayedCard

/-- Projection to the field record. -/
def PlayedCard.data : PlayedCard → PCData PlayedCard
  | .mk d => d

/-- Field update helper (models in-place mutation of one `PlayedCard`). -/
def PlayedCard.modify (p : PlayedCard) (f : PCData PlayedCard → PCData PlayedCard) :
    PlayedCard :=
  .mk (f p.data)

/-- `PlayedCard::new`. -/
def PlayedCard.new (card : Card) (turn : Nat) : PlayedCard :=
  .mk { card := card, attached_energy := [], damage_counters := 0,
        status_conditions := [], evolved_from := none, turn_played := turn,
        tool := none, temp_flags := TempFlags.default }

/-- `PlayedCard::max_hp`. -/
def PlayedCard.max_hp (p : PlayedCard) : Nat :=
  p.data.card.hp.getD 0

/-- `PlayedCard::remaining_hp` (an `i32` in the source). -/
def PlayedCard.remaining_hp (p : PlayedCard) : Int :=
  (p.max_hp : Int) - (p.data.damage_counters * 10 : Nat)

/-- `PlayedCard::is_knocked_out`. -/
def PlayedCard.is_knocked_out (p : PlayedCard) : Bool :=
  p.remaining_hp ≤ 0

/-- `PlayedCard::can_evolve`. -/
def PlayedCard.can_evolve (p : PlayedCard) (current_turn : Nat) : Bool :=
  p.data.turn_played < current_turn

/-- `PlayedCard::has_status`. -/
def PlayedCard.has_status (p : PlayedCard) (status : StatusCondition) : Bool :=
  p.data.status_conditions.contains status

/-- `PlayedCard::apply_status`: Asleep, Confused and Paralyzed are mutually
exclusive (applying one first removes the others); nothing is added when
the status is already present. -/
def PlayedCard.apply_status (p : PlayedCard) (status : StatusCondition) : PlayedCard :=
  let exclusive :=
    match status with
    | .Asleep | .Confused | .Paralyzed => true
    | _ => false
  let p1 :=
    if exclusive then
      p.modify fun d =>
        { d with status_conditions := d.status_conditions.filter fun s =>
            match s with
            | .Asleep | .Confused | .Paralyzed => false
            | _ => true }
    else p
  if p1.data.status_conditions.contains status then p1
  else p1.modify fun d =>
    { d with status_conditions := d.status_conditions ++ [status] }

/-- `PlayedCard::clear_status`. -/
def PlayedCard.clear_status (p : PlayedCard) : PlayedCard :=
  p.modify fun d => { d with status_conditions := [] }

/-- `PlayedCard::clear_temp_flags`. -/
def PlayedCard.clear_temp_flags (p : PlayedCard) : PlayedCard :=
  p.modify fun d => { d with temp_flags := TempFlags.default }

/-- `PlayerState` from `src/engine/src/game/state.rs`.  The bench is the
Rust `Vec<Option<PlayedCard>>`, always of length `MAX_BENCH`. -/
structure PlayerState : Type where
  deck : List Card
  hand : List Card
  active : Option PlayedCard
  bench : List (Option PlayedCard)
  discard : List Card
  prizes : List Card
  energy_zone_type : Option EnergyType
  energy_generated : Bool
  supporter_played : Bool
  retreated_this_turn : Bool
  prizes_taken : Nat
  points : Nat

/-- `PlayerState::new`. -/
def PlayerState.new : PlayerState :=
  { deck := [], hand := [], active := none, bench := [none, none, none],
    discard := [], prizes := [], energy_zone_type := none,
    energy_generated := false, supporter_played := false,
    retreated_this_turn := false, prizes_taken := 0, points := 0 }

/-- `PlayerState::bench_count`. -/
def PlayerState.bench_count (p : PlayerState) : Nat :=
  (p.bench.filter fun b => b.isSome).length

/-- `PlayerState::find_empty_bench`. -/
def PlayerState.find_empty_bench (p : PlayerState) : Option Nat :=
  p.bench.findIdx? fun b => b.isNone

/-- `PlayerState::get_pokemon` (board position 0 = active, 1-3 = bench). -/
def PlayerState.get_pokemon (p : PlayerState) (position : Nat) : Option PlayedCard :=
  if position = 0 then p.active
  else (p.bench.get? (position - 1)).bind id

/-- The write counterpart of `PlayerState::get_pokemon_mut`: replace the
Pokémon at a board position (no-op when the slot is absent or empty,
matching an unused `None` borrow). -/
def PlayerState.set_pokemon (p : PlayerState) (position : Nat) (q : PlayedCard) :
    PlayerState :=
  if position = 0 then
    match p.active with
    | some _ => { p with active := some q }
    | none => p
  else
    match (p.bench.get? (position - 1)).bind id with
    | some _ => { p with bench := p.bench.set (position - 1) (some q) }
    | none => p

/-- Mutation through `PlayerState::get_pokemon_mut`: apply `f` to the
Pokémon at `position` when present. -/
def PlayerState.modify_pokemon (p : PlayerState) (position : Nat)
    (f : PlayedCard → PlayedCard) : PlayerState :=
  match p.get_pokemon position with
  | some q => p.set_pokemon position (f q)
  | none => p

/-- `PlayerState::all_pokemon`: board positions with their occupants,
active first, then occupied bench slots in order. -/
def PlayerState.all_pokemon (p : PlayerState) : List (Nat × PlayedCard) :=
  (match p.active with
   | some a => [(0, a)]
   | none => []) ++
  (p.bench.enum.filterMap fun bi =>
    match bi.2 with
    | some pokemon => some (bi.1 + 1, pokemon)
    | none => none)

/-- `PlayerState::has_pokemon_in_play`. -/
def PlayerState.has_pokemon_in_play (p : PlayerState) : Bool :=
  p.active.isSome || p.bench.any fun b => b.isSome

/-- `PlayerState::has_basic_in_hand`. -/
def PlayerState.has_basic_in_hand (p : PlayerState) : Bool :=
  p.hand.any fun c => c.is_basic_pokemon

/-- `PlayerState::start_turn`: reset per-turn booleans and clear the temp
flags of every Pokémon in play. -/
def PlayerState.start_turn (p : PlayerState) : PlayerState :=
  { p with
    energy_generated := false, supporter_played := false,
    retreated_this_turn := false,
    active := p.active.map PlayedCard.clear_temp_flags,
    bench := p.bench.map fun b => b.map PlayedCard.clear_temp_flags }

/-- `PendingChoice` from `src/engine/src/game/state.rs`. -/
inductive PendingChoice : Type where
  | PromoteFromBench
  | ChooseTarget (valid_targets : List Nat) (description : String)
  | DiscardFromHand (count : Nat) (description : String)
  | DiscardEnergy (pokemon_position : Nat) (count : Nat)

/-- `DeferredTurnEnd` (see §3 of the spec and its uses in
`src/engine/src/game/engine.rs`). -/
inductive DeferredTurnEnd : Type where
  | NeedFullEndTurn (player : Nat)
  | NeedTurnSwitch (player : Nat)

/-- `GameState` from `src/engine/src/game/state.rs` (the two-element
`players` array is split into two fields). -/
structure GameState : Type where
  player0 : PlayerState
  player1 : PlayerState
  current_player : Nat
  turn_number : Nat
  phase : TurnPhase
  winner : Option Nat
  first_turn : Bool
  pending_choice : Option PendingChoice
  deferred_turn_end : Option DeferredTurnEnd

/-- `state.players[i]` (the engine only ever indexes with 0 or 1). -/
def GameState.player (s : GameState) (i : Nat) : PlayerState :=
  if i = 0 then s.player0 else s.player1

/-- Write `state.players[i]`. -/
def GameState.set_player (s : GameState) (i : Nat) (p : PlayerState) : GameState :=
  if i = 0 then { s with player0 := p } else { s with player1 := p }

/-- In-place mutation of `state.players[i]`. -/
def GameState.modify_player (s : GameState) (i : Nat)
    (f : PlayerState → PlayerState) : GameState :=
  s.set_player i (f (s.player i))

/-- `GameState::current` / `current_mut`. -/
def GameState.current (s : GameState) : PlayerState :=
  s.player s.current_player

/-- `GameState::is_terminal`. -/
def GameState.is_terminal (s : GameState) : Bool :=
  s.phase = TurnPhase.GameOver

/-- The seeded `GameRng` of `src/engine/src/game/rng.rs`.  The underlying
`rand::StdRng` is abstracted as the stream `bits` read at position `idx`;
every primitive draw (`gen_bool`, `gen_range`) consumes one element. -/
structure GameRng : Type where
  bits : Nat → Nat
  idx : Nat
  guaranteed_heads : Bool

/-- `GameRng::coin_flip`: a sticky `guaranteed_heads` forces heads once;
otherwise one draw decides the flip. -/
def GameRng.coin_flip (r : GameRng) : Bool × GameRng :=
  if r.guaranteed_heads then (true, { r with guaranteed_heads := false })
  else (r.bits r.idx % 2 = 0, { r with idx := r.idx + 1 })

/-- `GameRng::set_guaranteed_heads`. -/
def GameRng.set_guaranteed_heads (r : GameRng) (value : Bool) : GameRng :=
  { r with guaranteed_heads := value }

/-- `GameRng::coin_flips`: flip `count` coins, counting heads. -/
def GameRng.coin_flips (r : GameRng) : Nat → Nat × GameRng
  | 0 => (0, r)
  | n + 1 =>
    let (b, r1) := r.coin_flip
    let (heads, r2) := r1.coin_flips n
    (heads + (if b then 1 else 0), r2)

/-- One draw of `rng.gen_range(0..=i)` inside the Fisher-Yates loop of
`GameRng::shuffle`. -/
def GameRng.bounded (r : GameRng) (bound : Nat) : Nat × GameRng :=
  (r.bits r.idx % bound, { r with idx := r.idx + 1 })

/-- Swap two positions of a list (`slice.swap(i, j)`; indices are in
bounds at every call site). -/
def list_swap {α : Type} (l : List α) (i j : Nat) : List α :=
  match l.get? i, l.get? j with
  | some x, some y => (l.set i y).set j x
  | _, _ => l

/-- The Fisher-Yates loop of `GameRng::shuffle`: for `i` descending from
`len - 1` to `1`, swap position `i` with a uniform `j ∈ [0..=i]`. -/
def fisher_yates {α : Type} (r : GameRng) (l : List α) : Nat → List α × GameRng
  | 0 => (l, r)
  | i + 1 =>
    let (j, r1) := r.bounded (i + 2)
    fisher_yates r1 (list_swap l (i + 1) j) i

/-- `GameRng::shuffle`. -/
def GameRng.shuffle {α : Type} (r : GameRng) (l : List α) : List α × GameRng :=
  fisher_yates r l (l.length - 1)

/-- `GameRng::gen_range(min, max)` (half-open; returns `min` when the
range is empty). -/
def GameRng.gen_range (r : GameRng) (min max : Nat) : Nat × GameRng :=
  if max ≤ min then (min, r)
  else (min + r.bits r.idx % (max - min), { r with idx := r.idx + 1 })

/-- `Target` from `src/engine/src/effects/mechanics.rs`. -/
inductive Target : Type where
  | This | OpponentActive | OpponentBench | OpponentChooseBench
  | ChooseOpponentBench | ChooseOwnBench | ChooseOwn | AllOwn | OwnActive
deriving DecidableEq, Repr

/-- `DamageCondition` from `src/engine/src/effects/mechanics.rs`. -/
inductive DamageCondition : Type where
  | TargetHasDamage
  | PerEnergyAttached (et : EnergyType)
  | PerAnyEnergyAttached
  | PerDamageOnSelf
  | PerOwnBench
  | PerOpponentBench
  | CoinFlipHeads
deriving DecidableEq, Repr

set_option maxHeartbeats 1600000 in
/-- `Mechanic` from `src/engine/src/effects/mechanics.rs`. -/
inductive Mechanic : Type where
  | Damage (amount : Nat)
  | DamageOnCoinFlip (amount : Nat)
  | DamagePerCoinFlip (damage_per_heads flips : Nat)
  | ConditionalDamage (base bonus : Nat) (condition : DamageCondition)
  | DamageMultiplied (damage_per : Nat) (condition : DamageCondition)
  | BenchDamage (damage : Nat) (target : Target)
  | DamagePerEnergy (per : Nat) (energy_type : Option EnergyType)
  | DamagePerBench (per : Nat) (own : Bool)
  | DamagePerDamageCounter (per : Nat)
  | NoDamageOnTails
  | Heal (amount : Nat) (target : Target)
  | FullHeal (target : Target)
  | ApplyStatus (status : StatusCondition) (target : Target)
  | ApplyStatusOnCoinFlip (status : StatusCondition) (target : Target)
  | CureStatus (target : Target)
  | DiscardEnergy (count : Nat) (energy_type : Option EnergyType) (target : Target)
  | DiscardAllEnergy (target : Target)
  | DiscardOpponentEnergy (count : Nat)
  | MoveEnergy (count : Nat) (fromT toT : Target)
  | MoveAllEnergy (energy_type : Option EnergyType) (fromT toT : Target)
  | AttachEnergyFromDiscard (energy_type : Option EnergyType) (count : Nat)
      (target : Target)
  | AttachEnergyFromZone (energy_type : EnergyType) (count : Nat) (target : Target)
  | DrawCards (count : Nat)
  | OpponentDiscard (count : Nat)
  | SearchDeck (criteria : String)
  | SearchDeckRandom (count : Nat)
  | ShuffleHandDraw (count : Nat)
  | OpponentShuffleHandDraw (count : Nat)
  | BothShuffleHandDraw
  | RecoverFromDiscard (count : Nat)
  | DiscardFromHand (count : Nat)
  | PeekDeck (count : Nat)
  | SwitchOpponentActive
  | SwitchOwnActive
  | BounceToHand (target : Target)
  | ShuffleIntoDeck (target : Target)
  | PutOnOpponentBench
  | CantRetreat
  | CantAttackNextTurn
  | EvolveFromDeck
  | EvolveSkipStage
  | DamageBoost (amount : Nat)
  | DamageReduction (amount : Nat)
  | RetreatCostReduction (amount : Nat)
  | SurviveKO
  | GuaranteedHeads
  | MoveDamage (amount : Nat) (fromT toT : Target)
  | EndTurn
  | SelfDamage (amount : Nat)
  | PreventDamage (amount : Nat)
  | Invulnerable
  | PassiveHPBoost (amount : Nat)
  | PassiveDamageReduction (amount : Nat)
  | PassiveDamageBoost (amount : Nat)
  | PassiveRetreatReduction (amount : Nat)
  | PassiveAttackCostIncrease (amount : Nat)
  | RetaliationDamage (amount : Nat)
  | RetaliationStatus (status : StatusCondition)
  | OnKODamage (amount : Nat)
  | OnKOBounceToHand
  | OnKOMoveEnergy (count : Nat)
  | OnKODrawCard
  | HealBetweenTurns (amount : Nat)
  | CureStatusBetweenTurns
  | StatusImmunity
  | UsePreEvoAttacks
  | DamageBoostPerPoint (per : Nat)
  | Custom (tag : String)
  | NoOp
deriving Repr

/-- The `*mechanic == Mechanic::EndTurn` comparison (the only mechanic
equality test the engine performs; `EndTurn` carries no fields). -/
def Mechanic.is_end_turn : Mechanic → Bool
  | Mechanic.EndTurn => true
  | _ => false

/-- `EffectRegistry` from `src/engine/src/effects/registry.rs`, modelled at
its lookup interface: each `get_*_effects` returns the registered
(possibly empty) ordered mechanic list, exactly as the `HashMap` lookups
with `unwrap_or(&[])` do. -/
structure EffectRegistry : Type where
  get_attack_effects : String → Nat → List Mechanic
  get_ability_effects : String → List Mechanic
  get_trainer_effects : String → List Mechanic
  get_tool_effects : String → List Mechanic

/-- A registry with nothing registered (every lookup is empty, as for a
card the registry does not know). -/
def EffectRegistry.empty : EffectRegistry :=
  { get_attack_effects := fun _ _ => [],
    get_ability_effects := fun _ => [],
    get_trainer_effects := fun _ => [],
    get_tool_effects := fun _ => [] }

/-- `Action` from `src/engine/src/game/actions.rs`. -/
inductive Action : Type where
  | PlaceActive (hand_idx : Nat)
  | PlaceBench (hand_idx : Nat)
  | ConfirmSetup
  | PlayPokemonToBench (hand_idx : Nat)
  | EvolvePokemon (hand_idx board_pos : Nat)
  | SetEnergyZoneType (et : EnergyType)
  | AttachEnergy (board_pos : Nat)
  | Retreat (bench_idx : Nat)
  | UseAbility (board_pos : Nat)
  | PlayTrainer (hand_idx : Nat)
  | PlaySupporter (hand_idx : Nat)
  | UseAttack (attack_idx : Nat)
  | EndTurn
  | ChooseTarget (board_pos : Nat)
  | ChooseOption (idx : Nat)
  | PromotePokemon (bench_idx : Nat)
deriving DecidableEq, Repr

/-- `legal_actions_setup` from `src/engine/src/game/actions.rs`. -/
def legal_actions_setup (s : GameState) : List Action :=
  let player := s.current
  if player.active.isNone then
    player.hand.enum.filterMap fun ic =>
      if ic.2.is_basic_pokemon then some (Action.PlaceActive ic.1) else none
  else
    (if player.bench_count < MAX_BENCH then
      player.hand.enum.filterMap fun ic =>
        if ic.2.is_basic_pokemon then some (Action.PlaceBench ic.1) else none
    else []) ++ [Action.ConfirmSetup]

/-- The per-hand-card evolution targets of `legal_actions_main`. -/
def evolve_actions_for (s : GameState) (player : PlayerState)
    (hand_idx : Nat) (hand_card : Card) : List Action :=
  if !hand_card.is_evolution then []
  else
    match hand_card.evolves_from with
    | none => []
    | some evolves_from =>
      player.all_pokemon.filterMap fun pp =>
        let pos := pp.1
        let pokemon := pp.2
        if pokemon.data.card.name ≠ evolves_from then none
        else if !pokemon.can_evolve s.turn_number then none
        else
          let valid_evo : Bool :=
            match hand_card.stage with
            | some Stage.Stage1 => decide (pokemon.data.card.stage = some Stage.Basic)
            | some Stage.Stage2 => decide (pokemon.data.card.stage = some Stage.Stage1)
            | _ => false
          if valid_evo then some (Action.EvolvePokemon hand_idx pos) else none

/-- `legal_actions_main` from `src/engine/src/game/actions.rs`. -/
def legal_actions_main (s : GameState) : List Action :=
  let player := s.current
  (if player.bench_count < MAX_BENCH then
    player.hand.enum.filterMap fun ic =>
      if ic.2.is_basic_pokemon then some (Action.PlayPokemonToBench ic.1) else none
  else []) ++
  (player.hand.enum.flatMap fun ic => evolve_actions_for s player ic.1 ic.2) ++
  (if player.energy_zone_type.isNone then
    EnergyType.concrete_types.map Action.SetEnergyZoneType
  else []) ++
  (if !player.energy_generated && player.energy_zone_type.isSome then
    player.all_pokemon.map fun pp => Action.AttachEnergy pp.1
  else []) ++
  (if !player.retreated_this_turn then
    match player.active with
    | some active =>
      if !active.has_status StatusCondition.Paralyzed &&
          !active.has_status StatusCondition.Asleep then
        let retreat_cost := active.data.card.retreat_cost.getD 0
        if retreat_cost ≤ active.data.attached_energy.length then
          player.bench.enum.filterMap fun bi =>
            if bi.2.isSome then some (Action.Retreat bi.1) else none
        else []
      else []
    | none => []
  else []) ++
  (player.all_pokemon.filterMap fun pp =>
    if pp.2.data.card.ability.isSome && !pp.2.data.temp_flags.used_ability then
      some (Action.UseAbility pp.1)
    else none) ++
  (player.hand.enum.filterMap fun ic =>
    match ic.2.card_type with
    | CardType.Item | CardType.Tool | CardType.Fossil =>
      some (Action.PlayTrainer ic.1)
    | CardType.Supporter =>
      if !player.supporter_played then some (Action.PlaySupporter ic.1) else none
    | _ => none) ++
  (if !s.first_turn then
    match player.active with
    | some active =>
      if !active.has_status StatusCondition.Paralyzed then
        active.data.card.attacks.enum.filterMap fun ia =>
          if active.data.card.can_use_attack ia.1 active.data.attached_energy then
            some (Action.UseAttack ia.1)
          else none
      else []
    | none => []
  else []) ++
  [Action.EndTurn]

/-- `legal_actions_effect_choice` from `src/engine/src/game/actions.rs`. -/
def legal_actions_effect_choice (s : GameState) : List Action :=
  match s.pending_choice with
  | some PendingChoice.PromoteFromBench =>
    s.current.bench.enum.filterMap fun bi =>
      if bi.2.isSome then some (Action.PromotePokemon bi.1) else none
  | some (PendingChoice.ChooseTarget valid_targets _) =>
    valid_targets.map Action.ChooseTarget
  | some (PendingChoice.DiscardFromHand _ _) =>
    (List.range s.current.hand.length).map Action.ChooseOption
  | some (PendingChoice.DiscardEnergy pokemon_position _) =>
    match s.current.get_pokemon pokemon_position with
    | some pokemon =>
      (List.range pokemon.data.attached_energy.length).map Action.ChooseOption
    | none => []
  | none => []

/-- `legal_actions` from `src/engine/src/game/actions.rs`. -/
def legal_actions (s : GameState) : List Action :=
  match s.phase with
  | TurnPhase.Setup => legal_actions_setup s
  | TurnPhase.Main => legal_actions_main s
  | TurnPhase.EffectChoice => legal_actions_effect_choice s
  | TurnPhase.GameOver => []
  | _ => []

/-- Run a body `n` times (`for _ in 0..n`). -/
def iterate {α : Type} : Nat → (α → α) → α → α
  | 0, _, a => a
  | n + 1, f, a => iterate n f (f a)

/-- Mutate the active Pokémon of player `i` when present
(`if let Some(ref mut active) = state.players[i].active`). -/
def GameState.modify_active (s : GameState) (i : Nat) (f : PlayedCard → PlayedCard) :
    GameState :=
  s.modify_player i fun p => { p with active := p.active.map f }

/-- Mutate an occupied bench slot (`if let Some(ref mut pokemon) = bench[i]`). -/
def PlayerState.modify_bench_slot (p : PlayerState) (i : Nat)
    (f : PlayedCard → PlayedCard) : PlayerState :=
  match (p.bench.get? i).bind id with
  | some pk => { p with bench := p.bench.set i (some (f pk)) }
  | none => p

/-- Mutate every occupied bench slot in order. -/
def bench_map (f : PlayedCard → PlayedCard) (bench : List (Option PlayedCard)) :
    List (Option PlayedCard) :=
  bench.map fun b => b.map f

/-- Mutate the first occupied bench slot only (the `break` in the
`Choose*` arms of `apply_to_target`). -/
def bench_map_first (f : PlayedCard → PlayedCard) :
    List (Option PlayedCard) → List (Option PlayedCard)
  | [] => []
  | none :: rest => none :: bench_map_first f rest
  | some pk :: rest => some (f pk) :: rest

/-- `apply_to_target` from `src/engine/src/effects/executor.rs`. -/
def apply_to_target (s : GameState) (target : Target)
    (f : PlayedCard → PlayedCard) : GameState :=
  let current := s.current_player
  let opponent := 1 - current
  match target with
  | Target.This | Target.OwnActive => s.modify_active current f
  | Target.OpponentActive => s.modify_active opponent f
  | Target.OpponentBench =>
    s.modify_player opponent fun p => { p with bench := bench_map f p.bench }
  | Target.ChooseOwnBench =>
    s.modify_player current fun p => { p with bench := bench_map_first f p.bench }
  | Target.ChooseOpponentBench | Target.OpponentChooseBench =>
    s.modify_player opponent fun p => { p with bench := bench_map_first f p.bench }
  | Target.ChooseOwn => s.modify_active current f
  | Target.AllOwn =>
    s.modify_player current fun p =>
      { p with active := p.active.map f, bench := bench_map f p.bench }

/-- `bench_map` for closures that also carry captured mutable state. -/
def bench_map_acc {σ : Type} (f : PlayedCard → σ → PlayedCard × σ) :
    List (Option PlayedCard) → σ → List (Option PlayedCard) × σ
  | [], acc => ([], acc)
  | none :: rest, acc =>
    let (rest', acc') := bench_map_acc f rest acc
    (none :: rest', acc')
  | some pk :: rest, acc =>
    let (pk', acc1) := f pk acc
    let (rest', acc2) := bench_map_acc f rest acc1
    (some pk' :: rest', acc2)

/-- `bench_map_first` for closures with captured mutable state. -/
def bench_map_first_acc {σ : Type} (f : PlayedCard → σ → PlayedCard × σ) :
    List (Option PlayedCard) → σ → List (Option PlayedCard) × σ
  | [], acc => ([], acc)
  | none :: rest, acc =>
    let (rest', acc') := bench_map_first_acc f rest acc
    (none :: rest', acc')
  | some pk :: rest, acc =>
    let (pk', acc') := f pk acc
    (some pk' :: rest, acc')

/-- `apply_to_target` applied with an `FnMut` closure whose captured state
is threaded explicitly (used by the energy/damage moving mechanics). -/
def apply_to_target_acc {σ : Type} (s : GameState) (target : Target)
    (f : PlayedCard → σ → PlayedCard × σ) (init : σ) : GameState × σ :=
  let current := s.current_player
  let opponent := 1 - current
  match target with
  | Target.This | Target.OwnActive =>
    match (s.player current).active with
    | some pk =>
      let (pk', acc) := f pk init
      (s.modify_player current fun p => { p with active := some pk' }, acc)
    | none => (s, init)
  | Target.OpponentActive =>
    match (s.player opponent).active with
    | some pk =>
      let (pk', acc) := f pk init
      (s.modify_player opponent fun p => { p with active := some pk' }, acc)
    | none => (s, init)
  | Target.OpponentBench =>
    let (bench', acc) := bench_map_acc f (s.player opponent).bench init
    (s.modify_player opponent fun p => { p with bench := bench' }, acc)
  | Target.ChooseOwnBench =>
    let (bench', acc) := bench_map_first_acc f (s.player current).bench init
    (s.modify_player current fun p => { p with bench := bench' }, acc)
  | Target.ChooseOpponentBench | Target.OpponentChooseBench =>
    let (bench', acc) := bench_map_first_acc f (s.player opponent).bench init
    (s.modify_player opponent fun p => { p with bench := bench' }, acc)
  | Target.ChooseOwn =>
    match (s.player current).active with
    | some pk =>
      let (pk', acc) := f pk init
      (s.modify_player current fun p => { p with active := some pk' }, acc)
    | none => (s, init)
  | Target.AllOwn =>
    let (active', acc1) :=
      match (s.player current).active with
      | some pk =>
        let (pk', acc) := f pk init
        (some pk', acc)
      | none => (none, init)
    let (bench', acc2) := bench_map_acc f (s.player current).bench acc1
    (s.modify_player current fun p =>
      { p with active := active', bench := bench' }, acc2)

/-- The indices of occupied bench slots (the repeated
`bench.iter().enumerate().filter(is_some)` pattern). -/
def occupied_bench_indices (p : PlayerState) : List Nat :=
  p.bench.enum.filterMap fun bi => if bi.2.isSome then some bi.1 else none

/-- Promote the first occupied bench slot to active (the
`for i in 0..MAX_BENCH { if bench[i].is_some() { active = take; break } }`
pattern of the bounce/shuffle mechanics). -/
def promote_first_bench (p : PlayerState) : PlayerState :=
  if 0 < p.bench_count then
    match p.bench.findIdx? (fun b => b.isSome) with
    | some i =>
      { p with active := (p.bench.get? i).bind id, bench := p.bench.set i none }
    | none => p
  else p

/-- One iteration of the per-Pokémon loop in `DiscardEnergy`: remove the
first energy of the given type, or pop the last energy when no type is
given. -/
def discard_energy_step (energy_type : Option EnergyType) (pk : PlayedCard) :
    PlayedCard :=
  match energy_type with
  | some et =>
    pk.modify fun d => { d with attached_energy := d.attached_energy.erase et }
  | none =>
    pk.modify fun d => { d with attached_energy := d.attached_energy.dropLast }

/-- Pop up to `count` energies from a Pokémon, returning them in pop
order (the collecting closure of `MoveEnergy`). -/
def pop_energies : Nat → PlayedCard → PlayedCard × List EnergyType
  | 0, pk => (pk, [])
  | n + 1, pk =>
    match pk.data.attached_energy.getLast? with
    | none => (pk, [])
    | some e =>
      let pk1 := pk.modify fun d =>
        { d with attached_energy := d.attached_energy.dropLast }
      let (pk2, rest) := pop_energies n pk1
      (pk2, e :: rest)

/-- `check_condition` from `src/engine/src/effects/executor.rs`. -/
def check_condition (s : GameState) (condition : DamageCondition) (rng : GameRng) :
    Bool × GameRng :=
  let current := s.current_player
  let opponent := 1 - current
  match condition with
  | DamageCondition.TargetHasDamage =>
    ((s.player opponent).active.any (fun p => 0 < p.data.damage_counters), rng)
  | DamageCondition.CoinFlipHeads => rng.coin_flip
  | DamageCondition.PerOwnBench => (0 < (s.player current).bench_count, rng)
  | DamageCondition.PerOpponentBench => (0 < (s.player opponent).bench_count, rng)
  | DamageCondition.PerDamageOnSelf =>
    ((s.player current).active.any (fun p => 0 < p.data.damage_counters), rng)
  | DamageCondition.PerEnergyAttached _ =>
    ((s.player current).active.any (fun p => !p.data.attached_energy.isEmpty), rng)
  | DamageCondition.PerAnyEnergyAttached =>
    ((s.player current).active.any (fun p => !p.data.attached_energy.isEmpty), rng)

/-- `count_condition` from `src/engine/src/effects/executor.rs`. -/
def count_condition (s : GameState) (condition : DamageCondition) (rng : GameRng) :
    Nat × GameRng :=
  let current := s.current_player
  let opponent := 1 - current
  match condition with
  | DamageCondition.PerOwnBench => ((s.player current).bench_count, rng)
  | DamageCondition.PerOpponentBench => ((s.player opponent).bench_count, rng)
  | DamageCondition.PerDamageOnSelf =>
    (((s.player current).active.map (fun p => p.data.damage_counters)).getD 0, rng)
  | DamageCondition.PerEnergyAttached et =>
    (((s.player current).active.map
      (fun p => (p.data.attached_energy.filter (fun e => e = et)).length)).getD 0, rng)
  | DamageCondition.PerAnyEnergyAttached =>
    (((s.player current).active.map (fun p => p.data.attached_energy.length)).getD 0,
      rng)
  | DamageCondition.CoinFlipHeads =>
    let (b, rng') := rng.coin_flip
    (if b then 1 else 0, rng')
  | DamageCondition.TargetHasDamage =>
    (if (s.player opponent).active.any (fun p => 0 < p.data.damage_counters)
      then 1 else 0, rng)

/-- Push one energy onto a Pokémon (`attached_energy.push(e)`). -/
def push_energy (e : EnergyType) (pk : PlayedCard) : PlayedCard :=
  pk.modify fun d => { d with attached_energy := d.attached_energy ++ [e] }

/-- Add damage counters to a Pokémon. -/
def add_counters (n : Nat) (pk : PlayedCard) : PlayedCard :=
  pk.modify fun d => { d with damage_counters := d.damage_counters + n }

/-- `deck.pop()` + `hand.push(card)` inside an effect (silently does
nothing on an empty deck, unlike the turn-start draw). -/
def pop_deck_to_hand (p : PlayerState) : PlayerState :=
  match p.deck.getLast? with
  | some card => { p with deck := p.deck.dropLast, hand := p.hand ++ [card] }
  | none => p

/-- Remove the card at `idx` from `src`, pushing it onto `dst`
(the random discard/search loops). -/
def remove_at_push (src : List Card) (idx : Nat) (dst : List Card) :
    List Card × List Card :=
  match src.get? idx with
  | some c => (src.eraseIdx idx, dst ++ [c])
  | none => (src, dst)

/-- `execute_mechanic` from `src/engine/src/effects/executor.rs`. -/
def execute_mechanic (s : GameState) (mechanic : Mechanic) (rng : GameRng) :
    GameState × GameRng :=
  let current := s.current_player
  let opponent := 1 - current
  match mechanic with
  | Mechanic.Heal amount target =>
    (apply_to_target s target fun pk =>
      let heal := min (amount / 10) pk.data.damage_counters
      pk.modify fun d => { d with damage_counters := d.damage_counters - heal }, rng)
  | Mechanic.FullHeal target =>
    (apply_to_target s target fun pk =>
      pk.modify fun d => { d with damage_counters := 0 }, rng)
  | Mechanic.ApplyStatus status target =>
    (apply_to_target s target fun pk => pk.apply_status status, rng)
  | Mechanic.ApplyStatusOnCoinFlip status target =>
    let (b, rng') := rng.coin_flip
    (if b then apply_to_target s target (fun pk => pk.apply_status status) else s,
      rng')
  | Mechanic.CureStatus target =>
    (apply_to_target s target PlayedCard.clear_status, rng)
  | Mechanic.DiscardEnergy count energy_type target =>
    (apply_to_target s target (iterate count (discard_energy_step energy_type)), rng)
  | Mechanic.DiscardAllEnergy target =>
    (apply_to_target s target fun pk =>
      pk.modify fun d => { d with attached_energy := [] }, rng)
  | Mechanic.DiscardOpponentEnergy count =>
    (s.modify_active opponent (iterate count fun pk =>
      pk.modify fun d => { d with attached_energy := d.attached_energy.dropLast }),
      rng)
  | Mechanic.MoveEnergy count fromT toT =>
    let (s1, moved) := apply_to_target_acc s fromT
      (fun pk acc =>
        let (pk', es) := pop_energies count pk
        (pk', acc ++ es)) []
    (moved.foldl (fun st e => apply_to_target st toT (push_energy e)) s1, rng)
  | Mechanic.MoveAllEnergy energy_type fromT toT =>
    let (s1, moved) := apply_to_target_acc s fromT
      (fun pk acc =>
        match energy_type with
        | some et =>
          (pk.modify fun d =>
            { d with attached_energy := d.attached_energy.filter fun e => e ≠ et },
            acc ++ pk.data.attached_energy.filter fun e => e = et)
        | none =>
          (pk.modify fun d => { d with attached_energy := [] },
            acc ++ pk.data.attached_energy)) []
    (moved.foldl (fun st e => apply_to_target st toT (push_energy e)) s1, rng)
  | Mechanic.AttachEnergyFromDiscard energy_type count target =>
    (match (s.player current).active with
     | some _ =>
       match target with
       | Target.This | Target.OwnActive =>
         match energy_type with
         | some energy =>
           s.modify_active current (iterate count (push_energy energy))
         | none => s
       | _ => s
     | none => s, rng)
  | Mechanic.AttachEnergyFromZone energy_type count target =>
    (apply_to_target s target (iterate count (push_energy energy_type)), rng)
  | Mechanic.DrawCards count =>
    (s.modify_player current (iterate count pop_deck_to_hand), rng)
  | Mechanic.OpponentDiscard count =>
    iterate count
      (fun sr : GameState × GameRng =>
        let (st, r) := sr
        if (st.player opponent).hand.isEmpty then (st, r)
        else
          let (idx, r') := r.gen_range 0 (st.player opponent).hand.length
          (st.modify_player opponent fun p =>
            let (hand', discard') := remove_at_push p.hand idx p.discard
            { p with hand := hand', discard := discard' }, r'))
      (s, rng)
  | Mechanic.SearchDeckRandom count =>
    iterate count
      (fun sr : GameState × GameRng =>
        let (st, r) := sr
        if (st.player current).deck.isEmpty then (st, r)
        else
          let (idx, r') := r.gen_range 0 (st.player current).deck.length
          (st.modify_player current fun p =>
            let (deck', hand') := remove_at_push p.deck idx p.hand
            { p with deck := deck', hand := hand' }, r'))
      (s, rng)
  | Mechanic.ShuffleHandDraw count =>
    let s1 := s.modify_player current fun p =>
      { p with deck := p.deck ++ p.hand, hand := [] }
    let (deck', rng1) := rng.shuffle (s1.player current).deck
    let s2 := s1.modify_player current fun p => { p with deck := deck' }
    (s2.modify_player current (iterate count pop_deck_to_hand), rng1)
  | Mechanic.OpponentShuffleHandDraw count =>
    let s1 := s.modify_player opponent fun p =>
      { p with deck := p.deck ++ p.hand, hand := [] }
    let (deck', rng1) := rng.shuffle (s1.player opponent).deck
    let s2 := s1.modify_player opponent fun p => { p with deck := deck' }
    (s2.modify_player opponent (iterate count pop_deck_to_hand), rng1)
  | Mechanic.BothShuffleHandDraw =>
    let step := fun (i : Nat) (sr : GameState × GameRng) =>
      let (st, r) := sr
      let hand_size := (st.player i).hand.length
      let st1 := st.modify_player i fun p =>
        { p with deck := p.deck ++ p.hand, hand := [] }
      let (deck', r1) := r.shuffle (st1.player i).deck
      let st2 := st1.modify_player i fun p => { p with deck := deck' }
      (st2.modify_player i (iterate hand_size pop_deck_to_hand), r1)
    step 1 (step 0 (s, rng))
  | Mechanic.RecoverFromDiscard count =>
    iterate count
      (fun sr : GameState × GameRng =>
        let (st, r) := sr
        if (st.player current).discard.isEmpty then (st, r)
        else
          let (idx, r') := r.gen_range 0 (st.player current).discard.length
          (st.modify_player current fun p =>
            let (discard', hand') := remove_at_push p.discard idx p.hand
            { p with discard := discard', hand := hand' }, r'))
      (s, rng)
  | Mechanic.DiscardFromHand count =>
    iterate count
      (fun sr : GameState × GameRng =>
        let (st, r) := sr
        if (st.player current).hand.isEmpty then (st, r)
        else
          let (idx, r') := r.gen_range 0 (st.player current).hand.length
          (st.modify_player current fun p =>
            let (hand', discard') := remove_at_push p.hand idx p.discard
            { p with hand := hand', discard := discard' }, r'))
      (s, rng)
  | Mechanic.PeekDeck _ => (s, rng)
  | Mechanic.SearchDeck _ => (s, rng)
  | Mechanic.SwitchOpponentActive =>
    let slots := occupied_bench_indices (s.player opponent)
    if slots.isEmpty then (s, rng)
    else
      let (k, rng') := rng.gen_range 0 slots.length
      let idx := slots.getD k 0
      (s.modify_player opponent fun p =>
        { p with active := (p.bench.get? idx).bind id,
                 bench := p.bench.set idx p.active }, rng')
  | Mechanic.SwitchOwnActive =>
    let slots := occupied_bench_indices (s.player current)
    if slots.isEmpty then (s, rng)
    else
      let (k, rng') := rng.gen_range 0 slots.length
      let idx := slots.getD k 0
      (s.modify_player current fun p =>
        { p with active := (p.bench.get? idx).bind id,
                 bench := p.bench.set idx p.active }, rng')
  | Mechanic.BounceToHand target =>
    match target with
    | Target.OwnActive | Target.This =>
      match (s.player current).active with
      | some pokemon =>
        let s1 := s.modify_player current fun p =>
          { p with active := none, hand := p.hand ++ [pokemon.data.card] }
        (s1.modify_player current promote_first_bench, rng)
      | none => (s, rng)
    | _ => (s, rng)
  | Mechanic.ShuffleIntoDeck target =>
    match target with
    | Target.This | Target.OwnActive =>
      match (s.player current).active with
      | some pokemon =>
        let s1 := s.modify_player current fun p =>
          { p with active := none, deck := p.deck ++ [pokemon.data.card] }
        let (deck', rng1) := rng.shuffle (s1.player current).deck
        let s2 := s1.modify_player current fun p => { p with deck := deck' }
        (s2.modify_player current promote_first_bench, rng1)
      | none => (s, rng)
    | _ => (s, rng)
  | Mechanic.PutOnOpponentBench =>
    (match (s.player opponent).find_empty_bench with
     | some slot =>
       match (s.player opponent).discard.findIdx? (fun c => c.is_basic_pokemon) with
       | some idx =>
         match (s.player opponent).discard.get? idx with
         | some card =>
           s.modify_player opponent fun p =>
             { p with discard := p.discard.eraseIdx idx,
                      bench := p.bench.set slot
                        (some (PlayedCard.new card s.turn_number)) }
         | none => s
       | none => s
     | none => s, rng)
  | Mechanic.CantRetreat =>
    (s.modify_active opponent fun pk =>
      pk.modify fun d => { d with temp_flags := { d.temp_flags with cant_retreat := true } },
      rng)
  | Mechanic.CantAttackNextTurn => (s, rng)
  | Mechanic.EvolveFromDeck | Mechanic.EvolveSkipStage => (s, rng)
  | Mechanic.DamageBoost amount =>
    (s.modify_active current fun pk =>
      pk.modify fun d =>
        { d with temp_flags :=
            { d.temp_flags with bonus_damage := d.temp_flags.bonus_damage + amount } },
      rng)
  | Mechanic.DamageReduction amount =>
    let boost := fun (pk : PlayedCard) =>
      pk.modify fun d =>
        { d with temp_flags :=
            { d.temp_flags with prevent_damage_amount :=
                d.temp_flags.prevent_damage_amount + amount } }
    let s1 := s.modify_active current boost
    (s1.modify_player current fun p => { p with bench := bench_map boost p.bench },
      rng)
  | Mechanic.RetreatCostReduction _ => (s, rng)
  | Mechanic.SurviveKO => (s, rng)
  | Mechanic.GuaranteedHeads => (s, rng.set_guaranteed_heads true)
  | Mechanic.MoveDamage amount fromT toT =>
    let counters_to_move := amount / 10
    let (s1, actually_moved) := apply_to_target_acc s fromT
      (fun pk _ =>
        let m := min counters_to_move pk.data.damage_counters
        (pk.modify fun d => { d with damage_counters := d.damage_counters - m }, m))
      0
    (if 0 < actually_moved then apply_to_target s1 toT (add_counters actually_moved)
     else s1, rng)
  | Mechanic.EndTurn => (s, rng)
  | Mechanic.SelfDamage damage =>
    (s.modify_active current (add_counters (damage / 10)), rng)
  | Mechanic.PreventDamage amount =>
    (s.modify_active current fun pk =>
      pk.modify fun d =>
        { d with temp_flags := { d.temp_flags with prevent_damage_amount := amount } },
      rng)
  | Mechanic.Invulnerable =>
    (s.modify_active current fun pk =>
      pk.modify fun d =>
        { d with temp_flags := { d.temp_flags with prevent_damage_amount := 9999 } },
      rng)
  | Mechanic.BenchDamage damage target =>
    match target with
    | Target.OpponentBench =>
      (s.modify_player opponent fun p =>
        { p with bench := bench_map (add_counters (damage / 10)) p.bench }, rng)
    | Target.ChooseOpponentBench =>
      let slots := occupied_bench_indices (s.player opponent)
      if slots.isEmpty then (s, rng)
      else
        let (k, rng') := rng.gen_range 0 slots.length
        let idx := slots.getD k 0
        (s.modify_player opponent fun p =>
          p.modify_bench_slot idx (add_counters (damage / 10)), rng')
    | _ => (s, rng)
  | Mechanic.PassiveHPBoost _ | Mechanic.PassiveDamageReduction _
  | Mechanic.PassiveDamageBoost _ | Mechanic.PassiveRetreatReduction _
  | Mechanic.PassiveAttackCostIncrease _ | Mechanic.RetaliationDamage _
  | Mechanic.RetaliationStatus _ | Mechanic.OnKODamage _
  | Mechanic.OnKOBounceToHand | Mechanic.OnKOMoveEnergy _
  | Mechanic.OnKODrawCard | Mechanic.HealBetweenTurns _
  | Mechanic.CureStatusBetweenTurns | Mechanic.StatusImmunity
  | Mechanic.UsePreEvoAttacks | Mechanic.DamageBoostPerPoint _ => (s, rng)
  | Mechanic.Damage _ => (s, rng)
  | Mechanic.Custom _ | Mechanic.NoOp => (s, rng)
  | Mechanic.NoDamageOnTails | Mechanic.DamageOnCoinFlip _
  | Mechanic.DamagePerCoinFlip _ _ | Mechanic.ConditionalDamage _ _ _
  | Mechanic.DamageMultiplied _ _ | Mechanic.DamagePerEnergy _ _
  | Mechanic.DamagePerBench _ _ | Mechanic.DamagePerDamageCounter _ => (s, rng)

/-- Whether a mechanic belongs to the damage-shaping (pre-damage) group
that the side-effect pass of `execute_attack_effects` skips. -/
def Mechanic.is_damage_shaping : Mechanic → Bool
  | Mechanic.NoDamageOnTails | Mechanic.DamageOnCoinFlip _
  | Mechanic.DamagePerCoinFlip _ _ | Mechanic.ConditionalDamage _ _ _
  | Mechanic.DamageMultiplied _ _ | Mechanic.DamagePerEnergy _ _
  | Mechanic.DamagePerBench _ _ | Mechanic.DamagePerDamageCounter _ => true
  | _ => false

/-- The damage-shaping pass (first loop) of `execute_attack_effects`:
fold the mechanic list, updating the damage override; non-shaping
mechanics are skipped.  The game state is only read, never written, in
this pass. -/
def shape_damage (s : GameState) (effects : List Mechanic)
    (acc : Option Nat × GameRng) : Option Nat × GameRng :=
  effects.foldl
    (fun (acc : Option Nat × GameRng) mechanic =>
      let (damage_override, rng) := acc
      match mechanic with
      | Mechanic.NoDamageOnTails =>
        let (b, rng') := rng.coin_flip
        (if !b then some 0 else damage_override, rng')
      | Mechanic.DamageOnCoinFlip _ =>
        let (b, rng') := rng.coin_flip
        (if !b then some 0 else damage_override, rng')
      | Mechanic.DamagePerCoinFlip damage_per_heads flips =>
        let (heads, rng') := rng.coin_flips flips
        (some (heads * damage_per_heads), rng')
      | Mechanic.ConditionalDamage _ bonus condition =>
        let (b, rng') := check_condition s condition rng
        (if b then some (damage_override.getD 0 + bonus) else damage_override, rng')
      | Mechanic.DamageMultiplied damage_per condition =>
        let (count, rng') := count_condition s condition rng
        (some (count * damage_per), rng')
      | Mechanic.DamagePerEnergy per energy_type =>
        (match (s.player s.current_player).active with
         | some active =>
           let count :=
             match energy_type with
             | some et => (active.data.attached_energy.filter fun e => e = et).length
             | none => active.data.attached_energy.length
           some (count * per)
         | none => damage_override, rng)
      | Mechanic.DamagePerBench per own =>
        let player_idx := if own then s.current_player else 1 - s.current_player
        (some ((s.player player_idx).bench_count * per), rng)
      | Mechanic.DamagePerDamageCounter per =>
        (match (s.player s.current_player).active with
         | some active => some (active.data.damage_counters * per)
         | none => damage_override, rng)
      | _ => (damage_override, rng))
    acc

/-- `execute_attack_effects` from `src/engine/src/effects/executor.rs`:
the damage-shaping pass computes the optional damage override, then the
side-effect pass executes every non-shaping mechanic in list order. -/
def execute_attack_effects (registry : EffectRegistry) (s : GameState)
    (card_id : String) (attack_idx : Nat) (rng : GameRng) :
    Option Nat × GameState × GameRng :=
  let effects := registry.get_attack_effects card_id attack_idx
  let (damage_override, rng1) := shape_damage s effects (none, rng)
  let (s2, rng2) := effects.foldl
    (fun (sr : GameState × GameRng) mechanic =>
      if mechanic.is_damage_shaping then sr
      else execute_mechanic sr.1 mechanic sr.2)
    (s, rng1)
  (damage_override, s2, rng2)

/-- `StepResult` from `src/engine/src/game/engine.rs`. -/
inductive StepResult : Type where
  | Continue
  | GameOver (winner : Nat)
  | InvalidAction (message : String)
deriving DecidableEq, Repr

/-- Whether a step result is `InvalidAction`. -/
def StepResult.is_invalid : StepResult → Bool
  | StepResult.InvalidAction _ => true
  | _ => false

/-- The `GameOver`/`Continue` result read off the winner field (the
`if let Some(winner) = state.winner` tail of several engine functions). -/
def step_of_winner (s : GameState) : StepResult :=
  match s.winner with
  | some winner => StepResult.GameOver winner
  | none => StepResult.Continue

/-- `draw_card` from `src/engine/src/game/engine.rs`: draw from the end
of the deck; an empty deck loses the game for the drawing player. -/
def draw_card (s : GameState) : GameState :=
  match (s.current).deck.getLast? with
  | some card =>
    s.modify_player s.current_player fun p =>
      { p with deck := p.deck.dropLast, hand := p.hand ++ [card] }
  | none =>
    { s with winner := some (1 - s.current_player), phase := TurnPhase.GameOver }

/-- `check_win_conditions` from `src/engine/src/game/engine.rs` (the
`for i in 0..2` loop unrolled in order). -/
def check_win_conditions (s : GameState) : GameState :=
  if s.phase = TurnPhase.GameOver then s
  else if PRIZE_COUNT ≤ s.player0.points then
    { s with winner := some 0, phase := TurnPhase.GameOver }
  else if !s.player1.has_pokemon_in_play then
    { s with winner := some 0, phase := TurnPhase.GameOver }
  else if PRIZE_COUNT ≤ s.player1.points then
    { s with winner := some 1, phase := TurnPhase.GameOver }
  else if !s.player0.has_pokemon_in_play then
    { s with winner := some 1, phase := TurnPhase.GameOver }
  else s

/-- The `OnKOMoveEnergy` loop of `handle_knockout`: distribute the KO'd
Pokémon's energies over the occupied bench slots round-robin, stopping
after `move_energy_count` energies. -/
def move_ko_energies (s : GameState) (ko_player : Nat) (slots : List Nat)
    (move_energy_count : Nat) : List EnergyType → Nat → GameState
  | [], _ => s
  | energy :: rest, slot_idx =>
    if move_energy_count ≤ slot_idx ∨ slots.isEmpty then s
    else
      let target := slots.getD (slot_idx % slots.length) 0
      let s' := s.modify_player ko_player fun p =>
        p.modify_bench_slot target (push_energy energy)
      move_ko_energies s' ko_player slots move_energy_count rest (slot_idx + 1)

/-- `handle_knockout` from `src/engine/src/game/engine.rs`. -/
def handle_knockout (registry : EffectRegistry) (s : GameState)
    (knocked_out_player : Nat) : GameState :=
  let attacker := 1 - knocked_out_player
  let s_done : GameState :=
    match (s.player knocked_out_player).active with
    | some ko_pokemon =>
      let s1 := s.modify_player knocked_out_player fun p => { p with active := none }
      let points := if ko_pokemon.data.card.is_ex then 2 else 1
      let s2 := s1.modify_player attacker fun p => { p with points := p.points + points }
      let flags :=
        match ko_pokemon.data.tool with
        | some tool =>
          (registry.get_tool_effects tool.id).foldl
            (fun (bm : Bool × Nat) mechanic =>
              match mechanic with
              | Mechanic.OnKOBounceToHand => (true, bm.2)
              | Mechanic.OnKOMoveEnergy count => (bm.1, count)
              | _ => bm)
            (false, 0)
        | none => (false, 0)
      let bounce_to_hand := flags.1
      let move_energy_count := flags.2
      let s3 :=
        match (s2.player attacker).active with
        | some active =>
          match active.data.tool with
          | some tool =>
            (registry.get_tool_effects tool.id).foldl
              (fun st mechanic =>
                match mechanic with
                | Mechanic.OnKODrawCard =>
                  st.modify_player attacker pop_deck_to_hand
                | _ => st)
              s2
          | none => s2
        | none => s2
      let s4 :=
        if 0 < move_energy_count then
          let bench_slots := occupied_bench_indices (s3.player knocked_out_player)
          move_ko_energies s3 knocked_out_player bench_slots move_energy_count
            ko_pokemon.data.attached_energy 0
        else s3
      if bounce_to_hand then
        s4.modify_player knocked_out_player fun p =>
          { p with hand := p.hand ++ [ko_pokemon.data.card] }
      else
        s4.modify_player knocked_out_player fun p =>
          { p with discard := p.discard ++ [ko_pokemon.data.card] }
    | none => s
  if 0 < (s_done.player knocked_out_player).bench_count then
    let bench_pokemon := occupied_bench_indices (s_done.player knocked_out_player)
    if bench_pokemon.length = 1 then
      let idx := bench_pokemon.headD 0
      s_done.modify_player knocked_out_player fun p =>
        { p with active := (p.bench.get? idx).bind id, bench := p.bench.set idx none }
    else if !bench_pokemon.isEmpty then
      { s_done with pending_choice := some PendingChoice.PromoteFromBench,
                    phase := TurnPhase.EffectChoice,
                    current_player := knocked_out_player }
    else s_done
  else s_done

/-- The in-borrow part of `resolve_between_turns` acting on the current
player's active Pokémon: poison, burn, sleep and paralysis ticks followed
by the tool's between-turns passives. -/
def between_turns_active (registry : EffectRegistry) (pk : PlayedCard)
    (rng : GameRng) : PlayedCard × GameRng :=
  let pk1 :=
    if pk.has_status StatusCondition.Poisoned then add_counters 1 pk else pk
  let step2 : PlayedCard × GameRng :=
    if pk1.has_status StatusCondition.Burned then
      let (b, rng') := rng.coin_flip
      (if !b then add_counters 2 pk1 else pk1, rng')
    else (pk1, rng)
  let pk2 := step2.1
  let step3 : PlayedCard × GameRng :=
    if pk2.has_status StatusCondition.Asleep then
      let (b, rng') := step2.2.coin_flip
      (if b then
        pk2.modify fun d =>
          { d with status_conditions :=
              d.status_conditions.filter fun st => st ≠ StatusCondition.Asleep }
      else pk2, rng')
    else (pk2, step2.2)
  let pk3 := step3.1
  let pk4 := pk3.modify fun d =>
    { d with status_conditions :=
        d.status_conditions.filter fun st => st ≠ StatusCondition.Paralyzed }
  let pk5 :=
    match pk4.data.tool with
    | some tool =>
      (registry.get_tool_effects tool.id).foldl
        (fun q mechanic =>
          match mechanic with
          | Mechanic.HealBetweenTurns amount =>
            let heal := min (amount / 10) q.data.damage_counters
            q.modify fun d => { d with damage_counters := d.damage_counters - heal }
          | Mechanic.CureStatusBetweenTurns => q.clear_status
          | _ => q)
        pk4
    | none => pk4
  (pk5, step3.2)

/-- `resolve_between_turns` from `src/engine/src/game/engine.rs`. -/
def resolve_between_turns (registry : EffectRegistry) (s : GameState)
    (rng : GameRng) : GameState × GameRng :=
  let current := s.current_player
  let (s1, rng1) :=
    match (s.player current).active with
    | some active =>
      let (active', rng') := between_turns_active registry active rng
      (s.modify_player current fun p => { p with active := some active' }, rng')
    | none => (s, rng)
  let ko := (s1.player current).active.any PlayedCard.is_knocked_out
  if ko then (handle_knockout registry s1 current, rng1) else (s1, rng1)

/-- `complete_turn_switch` from `src/engine/src/game/engine.rs`. -/
def complete_turn_switch (s : GameState) : GameState :=
  let s1 := { s with current_player := 1 - s.current_player,
                     turn_number := s.turn_number + 1,
                     first_turn := false }
  let s2 := s1.modify_player s1.current_player PlayerState.start_turn
  let s3 := draw_card s2
  if s3.phase ≠ TurnPhase.GameOver then { s3 with phase := TurnPhase.Main } else s3

/-- `end_turn` from `src/engine/src/game/engine.rs`. -/
def end_turn (registry : EffectRegistry) (s : GameState) (rng : GameRng) :
    GameState × GameRng :=
  let (s1, rng1) := resolve_between_turns registry s rng
  if s1.pending_choice.isSome then
    let deferred := some (DeferredTurnEnd.NeedTurnSwitch s1.current_player)
    ({ s1 with deferred_turn_end := deferred }, rng1)
  else (complete_turn_switch s1, rng1)

/-- The fold in `resolve_attack` that adds the attacker's tool damage
boosts (`DamageBoostPerPoint` and `PassiveDamageBoost`). -/
def tool_boost_fold (effects : List Mechanic) (points damage : Nat) : Nat :=
  effects.foldl
    (fun d mechanic =>
      match mechanic with
      | Mechanic.DamageBoostPerPoint per => d + per * points
      | Mechanic.PassiveDamageBoost amount => d + amount
      | _ => d)
    damage

/-- The folds in `resolve_attack` that accumulate `PassiveDamageReduction`
amounts into the prevention total. -/
def prevent_fold (effects : List Mechanic) (prevent : Nat) : Nat :=
  effects.foldl
    (fun acc mechanic =>
      match mechanic with
      | Mechanic.PassiveDamageReduction amount => acc + amount
      | _ => acc)
    prevent

/-- The damage-combination `match` of `resolve_attack`
(`src/engine/src/game/engine.rs`, computation of `damage` from the base
damage and the override of `execute_attack_effects`). -/
def combine_damage (base : Nat) (damage_modifier : Option Nat) : Nat :=
  match damage_modifier with
  | some override_dmg =>
    if 0 < base ∧ 0 < override_dmg then base + override_dmg
    else if 0 < override_dmg then override_dmg
    else 0
  | none => base

/-- The post-shaping damage pipeline of `resolve_attack`: weakness
(+20 when the pre-modifier damage is positive and the defender's weakness
equals the attacker's energy type), the attacker's temporary bonus, the
attacker's tool boosts, then the defender's prevention subtracted with
`saturating_sub`. -/
def damage_after_modifiers (registry : EffectRegistry) (s : GameState)
    (damage0 : Nat) : Nat :=
  let current_player := s.current_player
  let opponent_idx := 1 - current_player
  let d1 :=
    if 0 < damage0 then
      match (s.player opponent_idx).active with
      | some opponent_active =>
        match opponent_active.data.card.weakness with
        | some weakness =>
          match ((s.player current_player).active).bind
              (fun a => a.data.card.energy_type) with
          | some attacker_type =>
            if attacker_type = weakness then damage0 + 20 else damage0
          | none => damage0
        | none => damage0
      | none => damage0
    else damage0
  let d2 :=
    match (s.player current_player).active with
    | some active => d1 + active.data.temp_flags.bonus_damage
    | none => d1
  let d3 :=
    match (s.player current_player).active with
    | some active =>
      match active.data.tool with
      | some tool =>
        tool_boost_fold (registry.get_tool_effects tool.id)
          (s.player current_player).points d2
      | none => d2
    | none => d2
  match (s.player opponent_idx).active with
  | some opponent_active =>
    let prevent0 := opponent_active.data.temp_flags.prevent_damage_amount
    let prevent1 :=
      match opponent_active.data.tool with
      | some tool => prevent_fold (registry.get_tool_effects tool.id) prevent0
      | none => prevent0
    let prevent2 :=
      match opponent_active.data.card.ability with
      | some _ =>
        prevent_fold (registry.get_ability_effects opponent_active.data.card.id)
          prevent1
      | none => prevent1
    d3 - prevent2
  | none => d3

/-- The damage application step of `resolve_attack`: when the final
damage is positive the defender's active gains `damage / 10` counters. -/
def apply_attack_damage (s : GameState) (damage : Nat) : GameState :=
  if 0 < damage then
    s.modify_active (1 - s.current_player) (add_counters (damage / 10))
  else s

/-- The retaliation step of `resolve_attack`: the defender's tool may
damage or apply a status to the attacker. -/
def apply_retaliation (registry : EffectRegistry) (s : GameState)
    (damage : Nat) : GameState :=
  let current_player := s.current_player
  let opponent_idx := 1 - current_player
  if 0 < damage then
    match (s.player opponent_idx).active with
    | some opponent_active =>
      match opponent_active.data.tool with
      | some tool =>
        (registry.get_tool_effects tool.id).foldl
          (fun st mechanic =>
            match mechanic with
            | Mechanic.RetaliationDamage amount =>
              st.modify_active current_player (add_counters (amount / 10))
            | Mechanic.RetaliationStatus status =>
              st.modify_active current_player fun pk => pk.apply_status status
            | _ => st)
          s
      | none => s
    | none => s
  else s

/-- The tail of `resolve_attack`: either park the promotion choice and
defer the turn end, or run the end-of-turn pipeline; in both cases check
the win conditions and answer with the winner-derived outcome. -/
def attack_finish (registry : EffectRegistry) (current_player : Nat)
    (s5 : GameState) (rng1 : GameRng) : GameState × GameRng × StepResult :=
  if s5.pending_choice.isSome then
    let deferred := some (DeferredTurnEnd.NeedFullEndTurn current_player)
    let s6 := { s5 with deferred_turn_end := deferred }
    let s7 := check_win_conditions s6
    (s7, rng1, step_of_winner s7)
  else
    let (s6, rng2) := end_turn registry s5 rng1
    let s7 := check_win_conditions s6
    (s7, rng2, step_of_winner s7)

/-- The part of `resolve_attack` after its two entry checks: the effect
execution, damage pipeline and knockout checks, ending in
`attack_finish`.  `card_id` and `base_damage` are the attacker's card id
and the attack's printed damage, read off before the borrow ends in the
Rust source. -/
def resolve_attack_body (registry : EffectRegistry) (s : GameState)
    (card_id : String) (base_damage : Nat) (attack_idx : Nat) (rng : GameRng) :
    GameState × GameRng × StepResult :=
  let current_player := s.current_player
  let opponent_idx := 1 - current_player
  let (damage_modifier, s1, rng1) :=
    execute_attack_effects registry s card_id attack_idx rng
  let damage0 := combine_damage base_damage damage_modifier
  let damage := damage_after_modifiers registry s1 damage0
  let s2 := apply_attack_damage s1 damage
  let s3 := apply_retaliation registry s2 damage
  let ko := (s3.player opponent_idx).active.any PlayedCard.is_knocked_out
  let s4 := if ko then handle_knockout registry s3 opponent_idx else s3
  let attacker_ko := (s4.player current_player).active.any PlayedCard.is_knocked_out
  let s5 := if attacker_ko then handle_knockout registry s4 current_player else s4
  attack_finish registry current_player s5 rng1

/-- `resolve_attack` from `src/engine/src/game/engine.rs`. -/
def resolve_attack (registry : EffectRegistry) (s : GameState)
    (attack_idx : Nat) (rng : GameRng) : GameState × GameRng × StepResult :=
  match (s.player s.current_player).active with
  | none => (s, rng, StepResult.InvalidAction "No active Pokemon")
  | some active =>
    match active.data.card.attacks.get? attack_idx with
    | none => (s, rng, StepResult.InvalidAction "Invalid attack index")
    | some attack =>
      resolve_attack_body registry s active.data.card.id attack.damage
        attack_idx rng

/-- `apply_setup_action` from `src/engine/src/game/engine.rs`. -/
def apply_setup_action (s : GameState) (action : Action) (rng : GameRng) :
    GameState × GameRng × StepResult :=
  match action with
  | Action.PlaceActive hand_idx =>
    match (s.player s.current_player).hand.get? hand_idx with
    | none => (s, rng, StepResult.InvalidAction "Invalid hand index")
    | some card =>
      (s.modify_player s.current_player fun p =>
        { p with hand := p.hand.eraseIdx hand_idx,
                 active := some (PlayedCard.new card s.turn_number) },
        rng, StepResult.Continue)
  | Action.PlaceBench hand_idx =>
    match (s.player s.current_player).hand.get? hand_idx with
    | none => (s, rng, StepResult.InvalidAction "Invalid hand index")
    | some card =>
      match (s.player s.current_player).find_empty_bench with
      | some slot_idx =>
        (s.modify_player s.current_player fun p =>
          { p with hand := p.hand.eraseIdx hand_idx,
                   bench := p.bench.set slot_idx
                     (some (PlayedCard.new card s.turn_number)) },
          rng, StepResult.Continue)
      | none => (s, rng, StepResult.InvalidAction "Bench is full")
  | Action.ConfirmSetup =>
    if s.current_player = 0 then
      ({ s with current_player := 1 }, rng, StepResult.Continue)
    else
      let s1 := { s with current_player := 0, phase := TurnPhase.Main,
                         first_turn := true }
      (draw_card s1, rng, StepResult.Continue)
  | _ => (s, rng, StepResult.InvalidAction "Invalid action for setup")

/-- The shared `PlayTrainer` / `PlaySupporter` arm of `apply_main_action`. -/
def play_trainer_card (registry : EffectRegistry) (s : GameState)
    (hand_idx : Nat) (is_supporter : Bool) (rng : GameRng) :
    GameState × GameRng × StepResult :=
  match (s.current).hand.get? hand_idx with
  | none => (s, rng, StepResult.InvalidAction "Invalid hand index")
  | some card =>
    let s1 := s.modify_player s.current_player fun p =>
      { p with hand := p.hand.eraseIdx hand_idx }
    let s2 :=
      if is_supporter then
        s1.modify_player s1.current_player fun p => { p with supporter_played := true }
      else s1
    if card.card_type = CardType.Tool then
      match (s2.current).active with
      | some active =>
        if active.data.tool.isNone then
          (s2.modify_player s2.current_player fun p =>
            { p with active := p.active.map fun pk =>
                pk.modify fun d => { d with tool := some card } },
            rng, StepResult.Continue)
        else
          (s2.modify_player s2.current_player fun p =>
            { p with discard := p.discard ++ [card] },
            rng, StepResult.Continue)
      | none =>
        (s2.modify_player s2.current_player fun p =>
          { p with discard := p.discard ++ [card] },
          rng, StepResult.Continue)
    else
      let card_id := card.id
      let effects := registry.get_trainer_effects card_id
      let s3 := s2.modify_player s2.current_player fun p =>
        { p with discard := p.discard ++ [card] }
      let folded := effects.foldl
        (fun (acc : GameState × GameRng × Bool) mechanic =>
          let (st, r, force) := acc
          if mechanic.is_end_turn then (st, r, true)
          else
            let (st', r') := execute_mechanic st mechanic r
            (st', r', force))
        (s3, rng, false)
      let (s4, rng4, force_end_turn) := folded
      if force_end_turn then
        let (s5, rng5) := end_turn registry s4 rng4
        (s5, rng5, StepResult.Continue)
      else (s4, rng4, StepResult.Continue)

/-- `apply_main_action` from `src/engine/src/game/engine.rs`. -/
def apply_main_action (registry : EffectRegistry) (s : GameState)
    (action : Action) (rng : GameRng) : GameState × GameRng × StepResult :=
  match action with
  | Action.PlayPokemonToBench hand_idx =>
    (match (s.current).hand.get? hand_idx with
     | none => (s, rng, StepResult.InvalidAction "Invalid hand index")
     | some card =>
       match (s.current).find_empty_bench with
       | some slot_idx =>
         (s.modify_player s.current_player fun p =>
           { p with hand := p.hand.eraseIdx hand_idx,
                    bench := p.bench.set slot_idx
                      (some (PlayedCard.new card s.turn_number)) },
           rng, StepResult.Continue)
       | none => (s, rng, StepResult.InvalidAction "Bench is full"))
  | Action.EvolvePokemon hand_idx board_pos =>
    (match (s.current).hand.get? hand_idx with
     | none => (s, rng, StepResult.InvalidAction "Invalid hand index")
     | some evo_card =>
       let s1 := s.modify_player s.current_player fun p =>
         { p with hand := p.hand.eraseIdx hand_idx }
       match (s1.current).get_pokemon board_pos with
       | some old_pokemon =>
         let updated := (PlayedCard.new evo_card s.turn_number).modify fun d =>
           { d with attached_energy := old_pokemon.data.attached_energy,
                    damage_counters := old_pokemon.data.damage_counters,
                    evolved_from := some old_pokemon,
                    status_conditions := [] }
         (s1.modify_player s1.current_player fun p =>
           p.set_pokemon board_pos updated,
           rng, StepResult.Continue)
       | none => (s1, rng, StepResult.InvalidAction "No Pokemon at position"))
  | Action.SetEnergyZoneType energy_type =>
    (s.modify_player s.current_player fun p =>
      { p with energy_zone_type := some energy_type },
      rng, StepResult.Continue)
  | Action.AttachEnergy board_pos =>
    if (s.current).energy_generated then
      (s, rng, StepResult.InvalidAction "Already attached energy this turn")
    else
      (match (s.current).energy_zone_type with
       | none => (s, rng, StepResult.InvalidAction "No energy zone type set")
       | some energy_type =>
         match (s.current).get_pokemon board_pos with
         | some _ =>
           let s1 := s.modify_player s.current_player fun p =>
             p.modify_pokemon board_pos (push_energy energy_type)
           (s1.modify_player s1.current_player fun p =>
             { p with energy_generated := true },
             rng, StepResult.Continue)
         | none => (s, rng, StepResult.InvalidAction "No Pokemon at position"))
  | Action.Retreat bench_idx =>
    if (s.current).retreated_this_turn then
      (s, rng, StepResult.InvalidAction "Already retreated this turn")
    else if MAX_BENCH ≤ bench_idx ∨ (((s.current).bench.get? bench_idx).bind id).isNone
    then (s, rng, StepResult.InvalidAction "Invalid bench index")
    else
      (match (s.current).active with
       | some active =>
         let cost := active.data.card.retreat_cost.getD 0
         if active.data.attached_energy.length < cost then
           (s, rng, StepResult.InvalidAction "Not enough energy to retreat")
         else
           let active1 := iterate cost
             (fun pk => pk.modify fun d =>
               { d with attached_energy := d.attached_energy.dropLast })
             active
           let active2 := active1.clear_status
           let s1 := s.modify_player s.current_player fun p =>
             { p with active := some active2 }
           (s1.modify_player s1.current_player fun p =>
             { p with active := (p.bench.get? bench_idx).bind id,
                      bench := p.bench.set bench_idx p.active,
                      retreated_this_turn := true },
             rng, StepResult.Continue)
       | none =>
         (s.modify_player s.current_player fun p =>
           { p with active := (p.bench.get? bench_idx).bind id,
                    bench := p.bench.set bench_idx p.active,
                    retreated_this_turn := true },
           rng, StepResult.Continue))
  | Action.UseAbility board_pos =>
    let card_id := ((s.current).get_pokemon board_pos).map fun pk => pk.data.card.id
    let s1 := s.modify_player s.current_player fun p =>
      p.modify_pokemon board_pos fun pk =>
        pk.modify fun d =>
          { d with temp_flags := { d.temp_flags with used_ability := true } }
    (match card_id with
     | some id =>
       let (s2, rng2) := (registry.get_ability_effects id).foldl
         (fun (sr : GameState × GameRng) mechanic =>
           execute_mechanic sr.1 mechanic sr.2)
         (s1, rng)
       (s2, rng2, StepResult.Continue)
     | none => (s1, rng, StepResult.Continue))
  | Action.PlayTrainer hand_idx => play_trainer_card registry s hand_idx false rng
  | Action.PlaySupporter hand_idx => play_trainer_card registry s hand_idx true rng
  | Action.UseAttack attack_idx =>
    if s.first_turn then
      (s, rng, StepResult.InvalidAction "Cannot attack on first turn")
    else resolve_attack registry s attack_idx rng
  | Action.EndTurn =>
    let (s1, rng1) := end_turn registry s rng
    (s1, rng1, StepResult.Continue)
  | _ => (s, rng, StepResult.InvalidAction "Invalid action for main phase")

/-- `apply_effect_choice` from `src/engine/src/game/engine.rs`. -/
def apply_effect_choice (registry : EffectRegistry) (s : GameState)
    (action : Action) (rng : GameRng) : GameState × GameRng × StepResult :=
  match s.pending_choice, action with
  | some PendingChoice.PromoteFromBench, Action.PromotePokemon bench_idx =>
    let s1 :=
      if bench_idx < MAX_BENCH then
        s.modify_player s.current_player fun p =>
          { p with active := (p.bench.get? bench_idx).bind id,
                   bench := p.bench.set bench_idx none }
      else s
    let s2 := { s1 with pending_choice := none }
    let after : GameState × GameRng :=
      match s2.deferred_turn_end with
      | some (DeferredTurnEnd.NeedFullEndTurn player_idx) =>
        end_turn registry
          { s2 with deferred_turn_end := none, current_player := player_idx } rng
      | some (DeferredTurnEnd.NeedTurnSwitch player_idx) =>
        (complete_turn_switch
          { s2 with deferred_turn_end := none, current_player := player_idx }, rng)
      | none =>
        ({ s2 with deferred_turn_end := none, phase := TurnPhase.Main }, rng)
    let s3 := check_win_conditions after.1
    (s3, after.2, step_of_winner s3)
  | _, _ => (s, rng, StepResult.InvalidAction "Invalid effect choice")

/-- `apply_action` from `src/engine/src/game/engine.rs`. -/
def apply_action (registry : EffectRegistry) (s : GameState) (action : Action)
    (rng : GameRng) : GameState × GameRng × StepResult :=
  match s.phase with
  | TurnPhase.Setup => apply_setup_action s action rng
  | TurnPhase.Main => apply_main_action registry s action rng
  | TurnPhase.EffectChoice => apply_effect_choice registry s action rng
  | _ => (s, rng, StepResult.InvalidAction "Cannot act in this phase")

/-- `ensure_basic_in_hand` from `src/engine/src/game/engine.rs`
(the `attempts < 10` loop, counted by the fuel argument). -/
def ensure_basic_in_hand (p : PlayerState) (rng : GameRng) :
    Nat → PlayerState × GameRng
  | 0 => (p, rng)
  | attempts_left + 1 =>
    if p.has_basic_in_hand then (p, rng)
    else
      let all_cards := p.hand ++ p.deck ++ p.prizes
      let (shuffled, rng1) := rng.shuffle all_cards
      let p1 := { p with
        hand := shuffled.take STARTING_HAND,
        prizes := (shuffled.drop STARTING_HAND).take PRIZE_COUNT,
        deck := (shuffled.drop STARTING_HAND).drop PRIZE_COUNT }
      ensure_basic_in_hand p1 rng1 attempts_left

/-- The shuffle-and-deal step of `new_game` for one player. -/
def deal_player (deck : Deck) (rng : GameRng) : PlayerState × GameRng :=
  let (cards, rng1) := rng.shuffle deck.cards
  let p := { PlayerState.new with
    hand := cards.take STARTING_HAND,
    prizes := (cards.drop STARTING_HAND).take PRIZE_COUNT,
    deck := (cards.drop STARTING_HAND).drop PRIZE_COUNT }
  (p, rng1)

/-- `new_game` from `src/engine/src/game/engine.rs`. -/
def new_game (deck1 deck2 : Deck) (rng0 : GameRng) : GameState × GameRng :=
  let (p0, rng1) := deal_player deck1 rng0
  let (p1, rng2) := deal_player deck2 rng1
  let (p0', rng3) := ensure_basic_in_hand p0 rng2 10
  let (p1', rng4) := ensure_basic_in_hand p1 rng3 10
  ({ player0 := p0', player1 := p1', current_player := 0, turn_number := 0,
     phase := TurnPhase.Setup, winner := none, first_turn := true,
     pending_choice := none, deferred_turn_end := none }, rng4)

/-- `ACTION_SPACE_SIZE` from `src/engine/src/bridge/action_map.rs`. -/
def ACTION_SPACE_SIZE : Nat := 512

/-- `energy_type_to_idx` from `src/engine/src/bridge/action_map.rs`. -/
def energy_type_to_idx : EnergyType → Nat
  | EnergyType.Grass => 0
  | EnergyType.Fire => 1
  | EnergyType.Water => 2
  | EnergyType.Lightning => 3
  | EnergyType.Psychic => 4
  | EnergyType.Fighting => 5
  | EnergyType.Darkness => 6
  | EnergyType.Metal => 7
  | EnergyType.Dragon => 8
  | EnergyType.Colorless => 9

/-- `idx_to_energy_type` from `src/engine/src/bridge/action_map.rs`. -/
def idx_to_energy_type : Nat → Option EnergyType
  | 0 => some EnergyType.Grass
  | 1 => some EnergyType.Fire
  | 2 => some EnergyType.Water
  | 3 => some EnergyType.Lightning
  | 4 => some EnergyType.Psychic
  | 5 => some EnergyType.Fighting
  | 6 => some EnergyType.Darkness
  | 7 => some EnergyType.Metal
  | 8 => some EnergyType.Dragon
  | _ => none

/-- `action_to_index` from `src/engine/src/bridge/action_map.rs`. -/
def action_to_index : Action → Nat
  | Action.PlaceActive i => i
  | Action.PlaceBench i => 10 + i
  | Action.ConfirmSetup => 20
  | Action.PlayPokemonToBench i => 21 + i
  | Action.EvolvePokemon hand board => 31 + hand * 4 + board
  | Action.SetEnergyZoneType et => 71 + energy_type_to_idx et
  | Action.AttachEnergy pos => 80 + pos
  | Action.Retreat bench => 84 + bench
  | Action.UseAbility pos => 87 + pos
  | Action.PlayTrainer i => 91 + i
  | Action.PlaySupporter i => 101 + i
  | Action.UseAttack i => 111 + i
  | Action.EndTurn => 114
  | Action.ChooseTarget pos => 115 + pos
  | Action.ChooseOption i => 119 + i
  | Action.PromotePokemon bench => 129 + bench

/-- `index_to_action` from `src/engine/src/bridge/action_map.rs`. -/
def index_to_action (idx : Nat) : Option Action :=
  if idx ≤ 9 then some (Action.PlaceActive idx)
  else if idx ≤ 19 then some (Action.PlaceBench (idx - 10))
  else if idx = 20 then some Action.ConfirmSetup
  else if idx ≤ 30 then some (Action.PlayPokemonToBench (idx - 21))
  else if idx ≤ 70 then
    let offset := idx - 31
    some (Action.EvolvePokemon (offset / 4) (offset % 4))
  else if idx ≤ 79 then (idx_to_energy_type (idx - 71)).map Action.SetEnergyZoneType
  else if idx ≤ 83 then some (Action.AttachEnergy (idx - 80))
  else if idx ≤ 86 then some (Action.Retreat (idx - 84))
  else if idx ≤ 90 then some (Action.UseAbility (idx - 87))
  else if idx ≤ 100 then some (Action.PlayTrainer (idx - 91))
  else if idx ≤ 110 then some (Action.PlaySupporter (idx - 101))
  else if idx ≤ 113 then some (Action.UseAttack (idx - 111))
  else if idx = 114 then some Action.EndTurn
  else if idx ≤ 118 then some (Action.ChooseTarget (idx - 115))
  else if idx ≤ 128 then some (Action.ChooseOption (idx - 119))
  else if idx ≤ 131 then some (Action.PromotePokemon (idx - 129))
  else none

/-- Whether an action's arguments lie inside the documented index table of
`src/engine/src/bridge/action_map.rs` (hand indices 0-9, board positions
0-3, bench indices 0-2, attack indices 0-2, concrete energy types). -/
def Action.in_documented_range : Action → Bool
  | Action.PlaceActive i => i < 10
  | Action.PlaceBench i => i < 10
  | Action.ConfirmSetup => true
  | Action.PlayPokemonToBench i => i < 10
  | Action.EvolvePokemon hand board => hand < 10 && board < 4
  | Action.SetEnergyZoneType et => et ≠ EnergyType.Colorless
  | Action.AttachEnergy pos => pos < 4
  | Action.Retreat bench => bench < 3
  | Action.UseAbility pos => pos < 4
  | Action.PlayTrainer i => i < 10
  | Action.PlaySupporter i => i < 10
  | Action.UseAttack i => i < 3
  | Action.EndTurn => true
  | Action.ChooseTarget pos => pos < 4
  | Action.ChooseOption i => i < 10
  | Action.PromotePokemon bench => bench < 3

/-- Drive the engine through a list of actions, recording the state and
step outcome after each `apply_action` (the outer self-play loop). -/
def run_actions (registry : EffectRegistry) :
    List Action → GameState → GameRng → List (GameState × StepResult)
  | [], _, _ => []
  | a :: rest, s, rng =>
    let (s', rng', res) := apply_action registry s a rng
    (s', res) :: run_actions registry rest s' rng'

/-- Drive the engine through a list of actions, keeping only the final
state and generator. -/
def run_seq (registry : EffectRegistry) :
    List Action → GameState × GameRng → GameState × GameRng
  | [], sr => sr
  | a :: rest, sr =>
    let (s', rng', _) := apply_action registry sr.1 a sr.2
    run_seq registry rest (s', rng')

/-- `simulate(seed, actions)`: build a game from two decks and a
generator, then apply the action sequence, returning the full trajectory
of states and step outcomes. -/
def simulate (registry : EffectRegistry) (deck1 deck2 : Deck) (rng0 : GameRng)
    (actions : List Action) : List (GameState × StepResult) :=
  let (s0, rng1) := new_game deck1 deck2 rng0
  run_actions registry actions s0 rng1

/-- A deterministic generator stream used by the concrete scenarios. -/
def zero_rng : GameRng :=
  { bits := fun _ => 0, idx := 0, guaranteed_heads := false }

/-- Fixture mirroring `make_basic` of `src/engine/tests/game_test.rs`. -/
def mk_basic (nm : String) (hp : Nat) (energy : EnergyType)
    (attacks : List Attack) : Card :=
  { id := nm, name := nm, card_type := CardType.Pokemon, hp := some hp,
    stage := some Stage.Basic, energy_type := some energy, weakness := none,
    retreat_cost := some 1, attacks := attacks, ability := none,
    evolves_from := none, is_ex := false, effect := none,
    set_name := some "Test", card_number := some 1, rarity := some "Common" }

/-- A basic test Pokémon with a single Colorless-cost attack. -/
def basic_card : Card :=
  mk_basic "Sparky" 60 EnergyType.Lightning
    [{ name := "Zap", energy_cost := [EnergyType.Colorless], damage := 10,
       effect := none }]

/-- A deck of 20 copies of `basic_card`. -/
def test_deck : Deck := { cards := List.replicate 20 basic_card }

/-- The S1 setup action sequence. -/
def setup_actions : List Action :=
  [Action.PlaceActive 0, Action.ConfirmSetup,
   Action.PlaceActive 0, Action.ConfirmSetup]

/-- The concrete state after `new_game` on two copies of `test_deck` with
the `zero_rng` stream, followed by the S1 setup sequence. -/
def post_setup_state : GameState :=
  (run_seq EffectRegistry.empty setup_actions
    (new_game test_deck test_deck zero_rng)).1

/-- `post_setup_state` after the current player fixes the energy zone. -/
def c2_state : GameState :=
  (run_seq EffectRegistry.empty [Action.SetEnergyZoneType EnergyType.Fire]
    (post_setup_state,
      (run_seq EffectRegistry.empty setup_actions
        (new_game test_deck test_deck zero_rng)).2)).1

/-- Whether the pending choice, if any, is the only kind the engine ever
parks (`PromoteFromBench`); every reachable state satisfies this. -/
def pending_promote_only (s : GameState) : Bool :=
  match s.pending_choice with
  | none => true
  | some PendingChoice.PromoteFromBench => true
  | some _ => false

/-- The weakness test of the damage pipeline: the defender's declared
weakness equals the attacker's energy type (both present). -/
def weakness_applies (attacker defender : Card) : Bool :=
  match defender.weakness, attacker.energy_type with
  | some w, some t => t = w
  | _, _ => false

/-- The tool effect list of a played card (empty without a tool). -/
def tool_effects_of (registry : EffectRegistry) (pk : PlayedCard) : List Mechanic :=
  match pk.data.tool with
  | some tool => registry.get_tool_effects tool.id
  | none => []

/-- Total `PassiveDamageBoost` amount in a mechanic list. -/
def passive_boost_sum (effects : List Mechanic) : Nat :=
  (effects.filterMap fun m =>
    match m with
    | Mechanic.PassiveDamageBoost amount => some amount
    | _ => none).sum

/-- Total `DamageBoostPerPoint.per` in a mechanic list. -/
def per_point_sum (effects : List Mechanic) : Nat :=
  (effects.filterMap fun m =>
    match m with
    | Mechanic.DamageBoostPerPoint per => some per
    | _ => none).sum

/-- Total `PassiveDamageReduction` amount in a mechanic list. -/
def prevent_sum (effects : List Mechanic) : Nat :=
  (effects.filterMap fun m =>
    match m with
    | Mechanic.PassiveDamageReduction amount => some amount
    | _ => none).sum

/-- A bare Pokémon Tool card (no registered effects). -/
def tool_card : Card :=
  { id := "helmet", name := "Helmet", card_type := CardType.Tool, hp := none,
    stage := none, energy_type := none, weakness := none, retreat_cost := none,
    attacks := [], ability := none, evolves_from := none, is_ex := false,
    effect := none, set_name := none, card_number := none, rarity := none }

/-- A Basic Pokémon that `stage1_card` evolves from. -/
def pre_basic_card : Card := mk_basic "PreBasic" 60 EnergyType.Grass []

/-- A Stage 1 evolution of `pre_basic_card`. -/
def stage1_card : Card :=
  { id := "evo", name := "Evo", card_type := CardType.Pokemon, hp := some 60,
    stage := some Stage.Stage1, energy_type := some EnergyType.Grass,
    weakness := none, retreat_cost := some 1, attacks := [], ability := none,
    evolves_from := some "PreBasic", is_ex := false, effect := none,
    set_name := none, card_number := none, rarity := none }

/-- A knocked-out evolved Pokémon wearing a tool: 6 damage counters on
60 HP, `evolved_from` holding the pre-evolution. -/
def c6_active : PlayedCard :=
  PlayedCard.mk
    { card := stage1_card, attached_energy := [], damage_counters := 6,
      status_conditions := [], evolved_from := some (PlayedCard.new pre_basic_card 0),
      turn_played := 1, tool := some tool_card, temp_flags := TempFlags.default }

/-- A state in which player 1's active is `c6_active`, knocked out, with
an empty bench and empty zones. -/
def c6_state : GameState :=
  { player0 := { PlayerState.new with active := some (PlayedCard.new basic_card 0) },
    player1 := { PlayerState.new with active := some c6_active },
    current_player := 0, turn_number := 2, phase := TurnPhase.Main,
    winner := none, first_turn := false, pending_choice := none,
    deferred_turn_end := none }

/-- A Main-phase state whose current player holds 11 Basic Pokémon in
hand (reachable by drawing each turn without playing). -/
def c8_state : GameState :=
  { player0 :=
      { PlayerState.new with
        hand := List.replicate 11 basic_card,
        active := some (PlayedCard.new basic_card 0) },
    player1 := { PlayerState.new with active := some (PlayedCard.new basic_card 0) },
    current_player := 0, turn_number := 1, phase := TurnPhase.Main,
    winner := none, first_turn := false, pending_choice := none,
    deferred_turn_end := none }

/-- The game state `new_game` hands to the setup phase: two dealt
players, player 0 to act, turn 0, Setup phase. -/
def initial_state (p0 p1 : PlayerState) : GameState :=
  { player0 := p0, player1 := p1, current_player := 0, turn_number := 0,
    phase := TurnPhase.Setup, winner := none, first_turn := true,
    pending_choice := none, deferred_turn_end := none }

/-! ## Theorems -/

/-- C1: the no-partial-mutation principle fails in the code.  At
`post_setup_state` the action `EvolvePokemon(0, 2)` is rejected with
`InvalidAction("No Pokemon at position")`, yet the player's hand has
shrunk from 5 cards to 4: `apply_main_action` removes the hand card
before checking the board position, so the card is lost. -/
theorem c1_invalid_action_mutates_state :
    (apply_action EffectRegistry.empty post_setup_state
      (Action.EvolvePokemon 0 2) zero_rng).2.2 =
        StepResult.InvalidAction "No Pokemon at position" ∧
    (apply_action EffectRegistry.empty post_setup_state
      (Action.EvolvePokemon 0 2) zero_rng).1.player0.hand ≠
        post_setup_state.player0.hand ∧
    post_setup_state.player0.hand.length = 5 ∧
    (apply_action EffectRegistry.empty post_setup_state
      (Action.EvolvePokemon 0 2) zero_rng).1.player0.hand.length = 4 := by
  decide

/-- C2 (counterexample): legality closure fails.  In `c2_state` the
energy zone type is already `Fire`, so `SetEnergyZoneType(Water)` is not
among the legal actions, yet `apply_action` accepts it and returns
`Continue`. -/
theorem c2_counterexample :
    Action.SetEnergyZoneType EnergyType.Water ∉ legal_actions c2_state ∧
    (apply_action EffectRegistry.empty c2_state
      (Action.SetEnergyZoneType EnergyType.Water) zero_rng).2.2 =
        StepResult.Continue := by
  decide

/-- C5: the damage-combination rule of `resolve_attack` matches the
spec: base and positive override add; a positive override replaces a
zero base; `Some(0)` zeroes the attack; `None` leaves the base. -/
theorem c5_damage_combination (base override_dmg : Nat) :
    (0 < base → 0 < override_dmg →
      combine_damage base (some override_dmg) = base + override_dmg) ∧
    (base = 0 → 0 < override_dmg →
      combine_damage base (some override_dmg) = override_dmg) ∧
    combine_damage base (some 0) = 0 ∧
    combine_damage base none = base := by
  refine ⟨fun hb ho => ?_, fun hb ho => ?_, ?_, rfl⟩
  · simp [combine_damage, hb, ho]
  · simp [combine_damage, hb, ho]
  · simp [combine_damage]

/-- Witness for C5 at concrete damage values. -/
theorem c5_damage_combination_witness :
    combine_damage 30 (some 20) = 50 ∧ combine_damage 0 (some 20) = 20 ∧
    combine_damage 30 (some 0) = 0 ∧ combine_damage 30 none = 30 :=
  ⟨(c5_damage_combination 30 20).1 (by decide) (by decide),
   (c5_damage_combination 0 20).2.1 rfl (by decide),
   (c5_damage_combination 30 0).2.2.1,
   (c5_damage_combination 30 0).2.2.2⟩

/-- C6: on a knockout the code moves only the top card to the discard
pile.  At `c6_state` the KO'd Pokémon is an evolution wearing a tool;
after `handle_knockout` the owner's discard holds exactly the top card,
and neither the pre-evolution card nor the tool card is anywhere in the
owner's state: both cards have left the game. -/
theorem c6_evolution_chain_and_tool_lost :
    c6_active.data.evolved_from.map (fun pk => pk.data.card) =
      some pre_basic_card ∧
    c6_active.data.tool = some tool_card ∧
    (handle_knockout EffectRegistry.empty c6_state 1).player1.discard =
      [stage1_card] ∧
    (handle_knockout EffectRegistry.empty c6_state 1).player1.active = none ∧
    (handle_knockout EffectRegistry.empty c6_state 1).player1.hand = [] ∧
    (handle_knockout EffectRegistry.empty c6_state 1).player1.deck = [] ∧
    (handle_knockout EffectRegistry.empty c6_state 1).player1.bench =
      [none, none, none] ∧
    pre_basic_card ∉ (handle_knockout EffectRegistry.empty c6_state 1).player1.discard ∧
    tool_card ∉ (handle_knockout EffectRegistry.empty c6_state 1).player1.discard := by
  refine ⟨rfl, rfl, by decide, rfl, by decide, by decide, rfl, by decide, by decide⟩

/-- C7 (counterexample): the S1 numbers in the spec do not match the
code.  With two all-Basic decks and an arbitrary fixed generator, after
`PlaceActive(0)`, `ConfirmSetup`, `PlaceActive(0)`, `ConfirmSetup` the
first player has 5 cards in hand (a card was drawn when setup completed)
and 11 in deck, the second 4 and 12 — not 4 and 8 for both. -/
theorem c7_counterexample :
    post_setup_state.phase = TurnPhase.Main ∧
    post_setup_state.current_player = 0 ∧
    post_setup_state.player0.hand.length = 5 ∧
    post_setup_state.player0.hand.length ≠ 4 ∧
    post_setup_state.player0.deck.length = 11 ∧
    post_setup_state.player1.hand.length = 4 ∧
    post_setup_state.player1.deck.length = 12 ∧
    post_setup_state.player0.prizes.length = 3 ∧
    post_setup_state.player1.prizes.length = 3 := by
  decide

/-- C8 (counterexample): the action-index mapping is not a bijection on
the actions `legal_actions` can emit.  In `c8_state` (11 Basics in hand)
the legal action `PlayPokemonToBench(10)` shares index 31 with the
distinct action `EvolvePokemon(0, 0)`, and decoding that index returns
the latter. -/
theorem c8_counterexample :
    Action.PlayPokemonToBench 10 ∈ legal_actions c8_state ∧
    action_to_index (Action.PlayPokemonToBench 10) =
      action_to_index (Action.EvolvePokemon 0 0) ∧
    Action.PlayPokemonToBench 10 ≠ Action.EvolvePokemon 0 0 ∧
    index_to_action (action_to_index (Action.PlayPokemonToBench 10)) =
      some (Action.EvolvePokemon 0 0) := by
  decide

/-- C9: determinism as a two-run property.  `simulate` is a pure
function of the decks, the seeded generator stream and the action list,
so two runs with equal seeds and equal action sequences produce equal
trajectories of states and step outcomes. -/
theorem c9_two_run_determinism (registry : EffectRegistry) (deck1 deck2 : Deck)
    (rng1 rng2 : GameRng) (acts1 acts2 : List Action)
    (hrng : rng1 = rng2) (hacts : acts1 = acts2) :
    simulate registry deck1 deck2 rng1 acts1 =
      simulate registry deck1 deck2 rng2 acts2 := by
  rw [hrng, hacts]

/-- Witness for C9 on a concrete run. -/
theorem c9_two_run_determinism_witness :
    simulate EffectRegistry.empty test_deck test_deck zero_rng setup_actions =
      simulate EffectRegistry.empty test_deck test_deck zero_rng setup_actions :=
  c9_two_run_determinism EffectRegistry.empty test_deck test_deck zero_rng zero_rng
    setup_actions setup_actions rfl rfl

/-- The greedy cost loop succeeds only when every non-Colorless cost
entry is covered by the attached counts, and the leftover length is the
attached length minus the number of non-Colorless entries. -/
theorem pay_concrete_sound :
    ∀ (cost remaining rem : List EnergyType),
      pay_concrete cost remaining = some rem →
      (∀ x, (cost.filter fun e => e ≠ EnergyType.Colorless).count x ≤
          remaining.count x) ∧
        rem.length + (cost.filter fun e => e ≠ EnergyType.Colorless).length =
          remaining.length
  | [], remaining, rem, h => by
    simp only [pay_concrete, Option.some.injEq] at h
    subst h
    simp
  | req :: rest, remaining, rem, h => by
    by_cases hc : req = EnergyType.Colorless
    · have h' : pay_concrete rest remaining = some rem := by
        simpa [pay_concrete, hc] using h
      obtain ⟨h1, h2⟩ := pay_concrete_sound rest remaining rem h'
      refine ⟨fun x => ?_, ?_⟩
      · simpa [List.filter_cons, hc] using h1 x
      · simpa [List.filter_cons, hc] using h2
    · have hmem : req ∈ remaining := by
        by_cases hm : remaining.contains req
        · simpa using hm
        · rw [pay_concrete, if_neg hc, if_neg hm] at h
          cases h
      have hcont : remaining.contains req = true := by simpa using hmem
      have h' : pay_concrete rest (remaining.erase req) = some rem := by
        rw [pay_concrete, if_neg hc, if_pos hcont] at h
        exact h
      obtain ⟨h1, h2⟩ := pay_concrete_sound rest (remaining.erase req) rem h'
      have hcountreq : 0 < remaining.count req := List.count_pos_iff.mpr hmem
      have hfc : (List.filter (fun e => e ≠ EnergyType.Colorless) (req :: rest)) =
          req :: List.filter (fun e => e ≠ EnergyType.Colorless) rest := by
        simp [List.filter_cons, hc]
      refine ⟨fun x => ?_, ?_⟩
      · rw [hfc]
        by_cases hxr : x = req
        · subst hxr
          have hx := h1 x
          rw [List.count_erase_self] at hx
          rw [List.count_cons_self]
          omega
        · have hx := h1 x
          rw [List.count_erase_of_ne hxr] at hx
          rw [List.count_cons_of_ne hxr]
          exact hx
      · have hlen : (remaining.erase req).length = remaining.length - 1 :=
          List.length_erase_of_mem hmem
        rw [hfc]
        have : 1 ≤ remaining.length := by
          cases remaining with
          | nil => cases hmem
          | cons a l => simp
        simp only [List.length_cons]
        omega

/-- The greedy cost loop succeeds whenever every non-Colorless cost
entry is covered by the attached counts. -/
theorem pay_concrete_complete :
    ∀ (cost remaining : List EnergyType),
      (∀ x, (cost.filter fun e => e ≠ EnergyType.Colorless).count x ≤
          remaining.count x) →
      ∃ rem, pay_concrete cost remaining = some rem
  | [], remaining, _ => ⟨remaining, rfl⟩
  | req :: rest, remaining, h => by
    by_cases hc : req = EnergyType.Colorless
    · obtain ⟨rem, hrem⟩ := pay_concrete_complete rest remaining fun x => by
        have hx := h x
        simpa [List.filter_cons, hc] using hx
      exact ⟨rem, by simpa [pay_concrete, hc] using hrem⟩
    · have hfc : (List.filter (fun e => e ≠ EnergyType.Colorless) (req :: rest)) =
          req :: List.filter (fun e => e ≠ EnergyType.Colorless) rest := by
        simp [List.filter_cons, hc]
      have hreq : 0 < remaining.count req := by
        have hx := h req
        rw [hfc, List.count_cons_self] at hx
        omega
      have hmem : req ∈ remaining := List.count_pos_iff.mp hreq
      have hcont : remaining.contains req = true := by simpa using hmem
      obtain ⟨rem, hrem⟩ := pay_concrete_complete rest (remaining.erase req) fun x => by
        have hx := h x
        rw [hfc] at hx
        by_cases hxr : x = req
        · subst hxr
          rw [List.count_cons_self] at hx
          rw [List.count_erase_self]
          omega
        · rw [List.count_cons_of_ne hxr] at hx
          rw [List.count_erase_of_ne hxr]
          exact hx
      refine ⟨rem, ?_⟩
      rw [pay_concrete, if_neg hc, if_pos hcont]
      exact hrem

/-- Count domination is exactly sub-permutation. -/
theorem counts_le_iff_subperm (l₁ l₂ : List EnergyType) :
    (∀ x, l₁.count x ≤ l₂.count x) ↔ List.Subperm l₁ l₂ := by
  rw [List.subperm_ext_iff]
  constructor
  · exact fun h x _ => h x
  · intro h x
    by_cases hx : x ∈ l₁
    · exact h x hx
    · simp [List.count_eq_zero.mpr hx]

/-- C3: `Card::can_use_attack` agrees with the multiset-matching
reference: the attack is usable exactly when the non-Colorless cost
entries embed into the attached energies as a sub-permutation and enough
attached energies are left over for the Colorless entries. -/
theorem c3_can_use_attack_iff_reference (c : Card) (k : Nat)
    (attached : List EnergyType) (atk : Attack)
    (h : c.attacks.get? k = some atk) :
    c.can_use_attack k attached = true ↔ payable_ref atk.energy_cost attached := by
  unfold Card.can_use_attack
  rw [h]
  rcases hp : pay_concrete atk.energy_cost attached with _ | rem
  · simp only [hp, Bool.false_eq_true, false_iff]
    rintro ⟨hsub, -⟩
    have hcounts := (counts_le_iff_subperm _ _).mpr hsub
    obtain ⟨rem, hrem⟩ := pay_concrete_complete atk.energy_cost attached hcounts
    rw [hp] at hrem
    cases hrem
  · obtain ⟨h1, h2⟩ := pay_concrete_sound atk.energy_cost attached rem hp
    have hsub := (counts_le_iff_subperm _ _).mp h1
    unfold payable_ref
    have hlen : attached.length -
        (atk.energy_cost.filter fun e => e ≠ EnergyType.Colorless).length =
        rem.length := by omega
    rw [hlen]
    simp only [hp, decide_eq_true_eq]
    constructor
    · exact fun hle => ⟨hsub, hle⟩
    · exact fun hpr => hpr.2

/-- Witness for C3 at a concrete attack: a single-Colorless cost paid by
one Fire energy. -/
theorem c3_can_use_attack_iff_reference_witness :
    basic_card.can_use_attack 0 [EnergyType.Fire] = true ↔
      payable_ref [EnergyType.Colorless] [EnergyType.Fire] :=
  c3_can_use_attack_iff_reference basic_card 0 [EnergyType.Fire]
    { name := "Zap", energy_cost := [EnergyType.Colorless], damage := 10,
      effect := none } rfl

/-- The attacker's tool-boost fold adds the `PassiveDamageBoost` total
plus the `DamageBoostPerPoint` total times the points. -/
theorem tool_boost_fold_eq (effects : List Mechanic) (points : Nat) :
    ∀ damage, tool_boost_fold effects points damage =
      damage + passive_boost_sum effects + per_point_sum effects * points := by
  induction effects with
  | nil => intro d; simp [tool_boost_fold, passive_boost_sum, per_point_sum]
  | cons m rest ih =>
    intro d
    have hstep : tool_boost_fold (m :: rest) points d =
        tool_boost_fold rest points
          (match m with
           | Mechanic.DamageBoostPerPoint per => d + per * points
           | Mechanic.PassiveDamageBoost amount => d + amount
           | _ => d) := rfl
    rw [hstep]
    cases m <;>
      simp [ih, passive_boost_sum, per_point_sum, List.filterMap_cons] <;>
      ring

/-- The prevention folds add the `PassiveDamageReduction` total. -/
theorem prevent_fold_eq (effects : List Mechanic) :
    ∀ prevent, prevent_fold effects prevent = prevent + prevent_sum effects := by
  induction effects with
  | nil => intro p; simp [prevent_fold, prevent_sum]
  | cons m rest ih =>
    intro p
    have hstep : prevent_fold (m :: rest) p =
        prevent_fold rest
          (match m with
           | Mechanic.PassiveDamageReduction amount => p + amount
           | _ => p) := rfl
    rw [hstep]
    cases m <;>
      simp [ih, prevent_sum, List.filterMap_cons] <;>
      omega

/-- `set_player` then `player` at the same index. -/
theorem GameState.player_set_self (s : GameState) (i : Nat) (p : PlayerState) :
    (s.set_player i p).player i = p := by
  by_cases hi : i = 0 <;> simp [GameState.set_player, GameState.player, hi]

/-- `set_player` leaves the other player of the pair unchanged. -/
theorem GameState.player_set_other (s : GameState) {i j : Nat} (p : PlayerState)
    (hij : i ≠ j) (hi : i < 2) (hj : j < 2) :
    (s.set_player i p).player j = s.player j := by
  interval_cases i <;> interval_cases j <;>
    simp_all [GameState.set_player, GameState.player]

/-- `modify_player` then `player` at the same index. -/
theorem GameState.player_modify_self (s : GameState) (i : Nat)
    (f : PlayerState → PlayerState) :
    (s.modify_player i f).player i = f (s.player i) :=
  GameState.player_set_self s i _

/-- `modify_player` leaves the other player of the pair unchanged. -/
theorem GameState.player_modify_other (s : GameState) {i j : Nat}
    (f : PlayerState → PlayerState) (hij : i ≠ j) (hi : i < 2) (hj : j < 2) :
    (s.modify_player i f).player j = s.player j :=
  GameState.player_set_other s _ hij hi hj


/-- C4: the post-shaping damage pipeline of `resolve_attack`.  With both
actives present and a positive pre-modifier damage, the final damage is:
the pre-modifier damage, plus 20 exactly when the defender's weakness
equals the attacker's energy type, plus the attacker's temporary bonus
damage, plus the tool `PassiveDamageBoost` total, plus the tool
`DamageBoostPerPoint` total times the attacker's points, minus (with
`saturating_sub`) the defender's `prevent_damage_amount` plus tool and
ability `PassiveDamageReduction` totals; the defender's damage counters
then grow by exactly `final / 10`. -/
theorem c4_damage_pipeline (registry : EffectRegistry) (s : GameState)
    (damage0 : Nat) (att_pk def_pk : PlayedCard)
    (hatt : (s.player s.current_player).active = some att_pk)
    (hdef : (s.player (1 - s.current_player)).active = some def_pk)
    (hpos : 0 < damage0) :
    damage_after_modifiers registry s damage0 =
      (damage0 +
        (if weakness_applies att_pk.data.card def_pk.data.card then 20 else 0) +
        att_pk.data.temp_flags.bonus_damage +
        passive_boost_sum (tool_effects_of registry att_pk) +
        per_point_sum (tool_effects_of registry att_pk) *
          (s.player s.current_player).points) -
      (def_pk.data.temp_flags.prevent_damage_amount +
        prevent_sum (tool_effects_of registry def_pk) +
        (if def_pk.data.card.ability.isSome then
          prevent_sum (registry.get_ability_effects def_pk.data.card.id)
        else 0)) ∧
    ((apply_attack_damage s (damage_after_modifiers registry s damage0)).player
        (1 - s.current_player)).active.map (fun pk => pk.data.damage_counters) =
      some (def_pk.data.damage_counters +
        damage_after_modifiers registry s damage0 / 10) := by
  constructor
  · unfold damage_after_modifiers
    simp only [hatt, hdef, if_pos hpos, Option.bind_eq_bind, Option.some_bind]
    have hweak :
        (match def_pk.data.card.weakness with
         | some weakness =>
           match att_pk.data.card.energy_type with
           | some attacker_type =>
             if attacker_type = weakness then damage0 + 20 else damage0
           | none => damage0
         | none => damage0) =
        damage0 + (if weakness_applies att_pk.data.card def_pk.data.card
          then 20 else 0) := by
      unfold weakness_applies
      rcases def_pk.data.card.weakness with _ | w <;>
        rcases att_pk.data.card.energy_type with _ | t <;> simp
      by_cases hwt : t = w <;> simp [hwt]
    rw [hweak]
    rcases htool : att_pk.data.tool with _ | tool <;>
      rcases hdtool : def_pk.data.tool with _ | dtool <;>
      rcases hab : def_pk.data.card.ability with _ | ab <;>
      simp only [tool_effects_of, htool, hdtool, hab, tool_boost_fold_eq,
        prevent_fold_eq, passive_boost_sum, per_point_sum, prevent_sum,
        List.filterMap_nil, List.sum_nil, Option.isSome_some, Option.isSome_none,
        if_true, if_false, Bool.false_eq_true, Nat.zero_mul, Nat.mul_zero,
        Nat.add_zero, Nat.zero_add, Nat.sub_zero]
  · rcases hdmg : damage_after_modifiers registry s damage0 with _ | n
    · simp [apply_attack_damage, hdmg, hdef]
    · unfold apply_attack_damage
      simp only [Nat.succ_eq_add_one, Nat.zero_lt_succ, if_pos]
      rw [GameState.modify_active, GameState.player_modify_self, hdef]
      simp [add_counters, PlayedCard.modify, PlayedCard.data]

/-- Witness for C4: at `c6_state` (no weakness, no boosts, no tools
registered) a pre-modifier damage of 30 passes through unchanged. -/
theorem c4_damage_pipeline_witness :
    damage_after_modifiers EffectRegistry.empty c6_state 30 = 30 := by
  have h := c4_damage_pipeline EffectRegistry.empty c6_state 30
    (PlayedCard.new basic_card 0) c6_active rfl rfl (by decide)
  rw [h.1]
  decide

/-- `set_player` does not change the non-player fields. -/
theorem GameState.fields_set_player (s : GameState) (i : Nat) (p : PlayerState) :
    (s.set_player i p).current_player = s.current_player ∧
    (s.set_player i p).turn_number = s.turn_number ∧
    (s.set_player i p).phase = s.phase ∧
    (s.set_player i p).winner = s.winner ∧
    (s.set_player i p).first_turn = s.first_turn ∧
    (s.set_player i p).pending_choice = s.pending_choice ∧
    (s.set_player i p).deferred_turn_end = s.deferred_turn_end := by
  unfold GameState.set_player
  split <;> exact ⟨rfl, rfl, rfl, rfl, rfl, rfl, rfl⟩

/-- `modify_player` does not change the non-player fields. -/
theorem GameState.fields_modify_player (s : GameState) (i : Nat)
    (f : PlayerState → PlayerState) :
    (s.modify_player i f).current_player = s.current_player ∧
    (s.modify_player i f).turn_number = s.turn_number ∧
    (s.modify_player i f).phase = s.phase ∧
    (s.modify_player i f).winner = s.winner ∧
    (s.modify_player i f).first_turn = s.first_turn ∧
    (s.modify_player i f).pending_choice = s.pending_choice ∧
    (s.modify_player i f).deferred_turn_end = s.deferred_turn_end :=
  GameState.fields_set_player s i _

/-- `set_pokemon` does not change the non-board fields. -/
theorem PlayerState.fields_set_pokemon (p : PlayerState) (pos : Nat)
    (q : PlayedCard) :
    (p.set_pokemon pos q).hand = p.hand ∧
    (p.set_pokemon pos q).deck = p.deck ∧
    (p.set_pokemon pos q).discard = p.discard ∧
    (p.set_pokemon pos q).prizes = p.prizes ∧
    (p.set_pokemon pos q).energy_zone_type = p.energy_zone_type ∧
    (p.set_pokemon pos q).energy_generated = p.energy_generated ∧
    (p.set_pokemon pos q).supporter_played = p.supporter_played ∧
    (p.set_pokemon pos q).retreated_this_turn = p.retreated_this_turn ∧
    (p.set_pokemon pos q).prizes_taken = p.prizes_taken ∧
    (p.set_pokemon pos q).points = p.points := by
  unfold PlayerState.set_pokemon
  split <;> split <;> exact ⟨rfl, rfl, rfl, rfl, rfl, rfl, rfl, rfl, rfl, rfl⟩

/-- `get_pokemon` only reads the board, not the hand or other zones. -/
theorem PlayerState.get_pokemon_hand_update (p : PlayerState) (h : List Card)
    (pos : Nat) :
    ({ p with hand := h } : PlayerState).get_pokemon pos = p.get_pokemon pos := by
  unfold PlayerState.get_pokemon
  rfl

/-- Writing an occupied board position makes `get_pokemon` read back the
written Pokémon. -/
theorem PlayerState.get_pokemon_set_pokemon_self (p : PlayerState) (pos : Nat)
    (q old : PlayedCard) (h : p.get_pokemon pos = some old) :
    (p.set_pokemon pos q).get_pokemon pos = some q := by
  unfold PlayerState.get_pokemon at h
  unfold PlayerState.get_pokemon PlayerState.set_pokemon
  by_cases h0 : pos = 0
  · simp only [h0, if_true] at h ⊢
    rw [h]
  · simp only [h0, if_false] at h ⊢
    rw [h]
    rcases hg : p.bench.get? (pos - 1) with _ | slot
    · rw [hg] at h
      cases h
    · have hlt : pos - 1 < p.bench.length := by
        by_contra hge
        rw [List.get?_eq_none.mpr (by omega)] at hg
        cases hg
      simp [List.getElem?_set_self (l := p.bench) (a := some q) hlt]

/-- Writing one board position leaves every other position unchanged. -/
theorem PlayerState.get_pokemon_set_pokemon_other (p : PlayerState)
    (pos pos' : Nat) (q : PlayedCard) (hne : pos' ≠ pos) :
    (p.set_pokemon pos q).get_pokemon pos' = p.get_pokemon pos' := by
  unfold PlayerState.get_pokemon PlayerState.set_pokemon
  by_cases h0 : pos = 0
  · subst h0
    rcases ha : p.active with _ | a
    · simp [ha]
    · simp [ha, hne]
  · rcases hg : (p.bench.get? (pos - 1)).bind id with _ | slot
    · simp [hg, h0]
    · by_cases h0' : pos' = 0
      · simp [hg, h0, h0']
      · have hidx : pos - 1 ≠ pos' - 1 := by omega
        simp [hg, h0, h0', List.getElem?_set_ne hidx]

/-- C10: a successful `EvolvePokemon(hand_idx, pos)` in the Main phase
replaces the Pokémon at `pos` by the hand card with the old occupant's
energies and damage, the old occupant stored in `evolved_from`, no
status, default temp flags, no tool, and `turn_played` = the current
turn; the hand loses exactly the played card and everything else — other
board positions, the player's other zones and flags, the opponent, and
the global fields — is unchanged. -/
theorem c10_evolve_frame (registry : EffectRegistry) (s : GameState)
    (rng : GameRng) (hand_idx pos : Nat) (evo_card : Card) (old : PlayedCard)
    (hphase : s.phase = TurnPhase.Main)
    (hcp : s.current_player < 2)
    (hhand : (s.current).hand.get? hand_idx = some evo_card)
    (hold : (s.current).get_pokemon pos = some old) :
    (apply_action registry s (Action.EvolvePokemon hand_idx pos) rng).2.2 =
      StepResult.Continue ∧
    (apply_action registry s (Action.EvolvePokemon hand_idx pos) rng).2.1 = rng ∧
    ((apply_action registry s (Action.EvolvePokemon hand_idx pos) rng).1.player
        s.current_player).get_pokemon pos =
      some (PlayedCard.mk
        { card := evo_card, attached_energy := old.data.attached_energy,
          damage_counters := old.data.damage_counters, status_conditions := [],
          evolved_from := some old, turn_played := s.turn_number, tool := none,
          temp_flags := TempFlags.default }) ∧
    ((apply_action registry s (Action.EvolvePokemon hand_idx pos) rng).1.player
        s.current_player).hand = (s.current).hand.eraseIdx hand_idx ∧
    (∀ pos', pos' ≠ pos →
      ((apply_action registry s (Action.EvolvePokemon hand_idx pos) rng).1.player
          s.current_player).get_pokemon pos' = (s.current).get_pokemon pos') ∧
    ((apply_action registry s (Action.EvolvePokemon hand_idx pos) rng).1.player
        s.current_player).deck = (s.current).deck ∧
    ((apply_action registry s (Action.EvolvePokemon hand_idx pos) rng).1.player
        s.current_player).discard = (s.current).discard ∧
    ((apply_action registry s (Action.EvolvePokemon hand_idx pos) rng).1.player
        s.current_player).prizes = (s.current).prizes ∧
    ((apply_action registry s (Action.EvolvePokemon hand_idx pos) rng).1.player
        s.current_player).energy_zone_type = (s.current).energy_zone_type ∧
    ((apply_action registry s (Action.EvolvePokemon hand_idx pos) rng).1.player
        s.current_player).points = (s.current).points ∧
    (apply_action registry s (Action.EvolvePokemon hand_idx pos) rng).1.player
        (1 - s.current_player) = s.player (1 - s.current_player) ∧
    (apply_action registry s (Action.EvolvePokemon hand_idx pos) rng).1.current_player
        = s.current_player ∧
    (apply_action registry s (Action.EvolvePokemon hand_idx pos) rng).1.turn_number
        = s.turn_number ∧
    (apply_action registry s (Action.EvolvePokemon hand_idx pos) rng).1.phase
        = s.phase ∧
    (apply_action registry s (Action.EvolvePokemon hand_idx pos) rng).1.winner
        = s.winner ∧
    (apply_action registry s (Action.EvolvePokemon hand_idx pos) rng).1.first_turn
        = s.first_turn ∧
    (apply_action registry s (Action.EvolvePokemon hand_idx pos) rng).1.pending_choice
        = s.pending_choice ∧
    (apply_action registry s (Action.EvolvePokemon hand_idx pos) rng).1.deferred_turn_end
        = s.deferred_turn_end := by
  have hnew : (PlayedCard.new evo_card s.turn_number).modify (fun d =>
      { d with attached_energy := old.data.attached_energy,
               damage_counters := old.data.damage_counters,
               evolved_from := some old,
               status_conditions := [] }) =
      PlayedCard.mk
        { card := evo_card, attached_energy := old.data.attached_energy,
          damage_counters := old.data.damage_counters, status_conditions := [],
          evolved_from := some old, turn_played := s.turn_number, tool := none,
          temp_flags := TempFlags.default } := rfl
  have hcur1 : (s.modify_player s.current_player fun p =>
      { p with hand := p.hand.eraseIdx hand_idx }).current_player =
      s.current_player :=
    (GameState.fields_set_player s s.current_player _).1
  have hplayer1 : (s.modify_player s.current_player fun p =>
      { p with hand := p.hand.eraseIdx hand_idx }).player s.current_player =
      { s.current with hand := (s.current).hand.eraseIdx hand_idx } :=
    GameState.player_modify_self s s.current_player _
  have hget1 : ((s.modify_player s.current_player fun p =>
      { p with hand := p.hand.eraseIdx hand_idx }).current).get_pokemon pos =
      some old := by
    unfold GameState.current
    rw [hcur1, hplayer1, PlayerState.get_pokemon_hand_update]
    exact hold
  have happ : apply_action registry s (Action.EvolvePokemon hand_idx pos) rng =
      (((s.modify_player s.current_player fun p =>
          { p with hand := p.hand.eraseIdx hand_idx }).modify_player
          ((s.modify_player s.current_player fun p =>
            { p with hand := p.hand.eraseIdx hand_idx }).current_player)
          fun p => p.set_pokemon pos
            (PlayedCard.mk
              { card := evo_card, attached_energy := old.data.attached_energy,
                damage_counters := old.data.damage_counters,
                status_conditions := [], evolved_from := some old,
                turn_played := s.turn_number, tool := none,
                temp_flags := TempFlags.default })),
        rng, StepResult.Continue) := by
    simp only [apply_action, apply_main_action, hphase, hhand, hget1]
    rfl
  rw [happ, hcur1]
  have hplayer2 : ((s.modify_player s.current_player fun p =>
        { p with hand := p.hand.eraseIdx hand_idx }).modify_player
        s.current_player fun p => p.set_pokemon pos
          (PlayedCard.mk
            { card := evo_card, attached_energy := old.data.attached_energy,
              damage_counters := old.data.damage_counters,
              status_conditions := [], evolved_from := some old,
              turn_played := s.turn_number, tool := none,
              temp_flags := TempFlags.default })).player s.current_player =
      ({ s.current with hand := (s.current).hand.eraseIdx hand_idx
        } : PlayerState).set_pokemon pos
        (PlayedCard.mk
          { card := evo_card, attached_energy := old.data.attached_energy,
            damage_counters := old.data.damage_counters,
            status_conditions := [], evolved_from := some old,
            turn_played := s.turn_number, tool := none,
            temp_flags := TempFlags.default }) := by
    rw [GameState.player_modify_self, hplayer1]
  have holdup : ({ s.current with hand := (s.current).hand.eraseIdx hand_idx
      } : PlayerState).get_pokemon pos = some old := by
    rw [PlayerState.get_pokemon_hand_update]
    exact hold
  have hopp : 1 - s.current_player < 2 := by omega
  have hne : s.current_player ≠ 1 - s.current_player := by omega
  refine ⟨rfl, rfl, ?_, ?_, ?_, ?_, ?_, ?_, ?_, ?_, ?_, ?_, ?_, ?_, ?_, ?_, ?_, ?_⟩
  · rw [hplayer2]
    exact PlayerState.get_pokemon_set_pokemon_self _ pos _ old holdup
  · rw [hplayer2]
    exact (PlayerState.fields_set_pokemon _ pos _).1
  · intro pos' hne'
    rw [hplayer2, PlayerState.get_pokemon_set_pokemon_other _ pos pos' _ hne',
      PlayerState.get_pokemon_hand_update]
  · rw [hplayer2]
    exact (PlayerState.fields_set_pokemon _ pos _).2.1
  · rw [hplayer2]
    exact (PlayerState.fields_set_pokemon _ pos _).2.2.1
  · rw [hplayer2]
    exact (PlayerState.fields_set_pokemon _ pos _).2.2.2.1
  · rw [hplayer2]
    exact (PlayerState.fields_set_pokemon _ pos _).2.2.2.2.1
  · rw [hplayer2]
    exact (PlayerState.fields_set_pokemon _ pos _).2.2.2.2.2.2.2.2.2
  · rw [GameState.player_modify_other _ _ hne hcp hopp,
      GameState.player_modify_other _ _ hne hcp hopp]
  · rw [(GameState.fields_modify_player _ _ _).1,
      (GameState.fields_modify_player _ _ _).1]
  · rw [(GameState.fields_modify_player _ _ _).2.1,
      (GameState.fields_modify_player _ _ _).2.1]
  · rw [(GameState.fields_modify_player _ _ _).2.2.1,
      (GameState.fields_modify_player _ _ _).2.2.1]
  · rw [(GameState.fields_modify_player _ _ _).2.2.2.1,
      (GameState.fields_modify_player _ _ _).2.2.2.1]
  · rw [(GameState.fields_modify_player _ _ _).2.2.2.2.1,
      (GameState.fields_modify_player _ _ _).2.2.2.2.1]
  · rw [(GameState.fields_modify_player _ _ _).2.2.2.2.2.1,
      (GameState.fields_modify_player _ _ _).2.2.2.2.2.1]
  · rw [(GameState.fields_modify_player _ _ _).2.2.2.2.2.2,
      (GameState.fields_modify_player _ _ _).2.2.2.2.2.2]

/-- Witness for C10: evolving onto the active at `post_setup_state`
succeeds. -/
theorem c10_evolve_frame_witness :
    (apply_action EffectRegistry.empty post_setup_state
      (Action.EvolvePokemon 0 0) zero_rng).2.2 = StepResult.Continue :=
  (c10_evolve_frame EffectRegistry.empty post_setup_state zero_rng 0 0
    basic_card (PlayedCard.new basic_card 0) rfl (by decide) rfl rfl).1

/-- C8 (amended): on actions whose arguments lie in the documented
ranges, the index mapping is a bijection: decoding inverts encoding,
encoding is injective, `EvolvePokemon(hand, pos)` encodes as
`31 + hand*4 + pos`, and the nine concrete energy types encode, in the
documented order, to 71 through 79. -/
theorem c8_action_index_bijection :
    (∀ a : Action, a.in_documented_range = true →
      index_to_action (action_to_index a) = some a) ∧
    (∀ a b : Action, a.in_documented_range = true →
      b.in_documented_range = true → action_to_index a = action_to_index b →
      a = b) ∧
    (∀ hand board : Nat,
      action_to_index (Action.EvolvePokemon hand board) =
        31 + hand * 4 + board) ∧
    EnergyType.concrete_types.map
        (fun e => action_to_index (Action.SetEnergyZoneType e)) =
      [71, 72, 73, 74, 75, 76, 77, 78, 79] := by
  have hround : ∀ a : Action, a.in_documented_range = true →
      index_to_action (action_to_index a) = some a := by
    intro a ha
    cases a with
    | PlaceActive i =>
      simp only [Action.in_documented_range, decide_eq_true_eq] at ha
      interval_cases i <;> decide
    | PlaceBench i =>
      simp only [Action.in_documented_range, decide_eq_true_eq] at ha
      interval_cases i <;> decide
    | ConfirmSetup => decide
    | PlayPokemonToBench i =>
      simp only [Action.in_documented_range, decide_eq_true_eq] at ha
      interval_cases i <;> decide
    | EvolvePokemon hand board =>
      simp only [Action.in_documented_range, Bool.and_eq_true,
        decide_eq_true_eq] at ha
      obtain ⟨h1, h2⟩ := ha
      interval_cases hand <;> interval_cases board <;> decide
    | SetEnergyZoneType et =>
      cases et <;> simp_all [Action.in_documented_range] <;> decide
    | AttachEnergy pos =>
      simp only [Action.in_documented_range, decide_eq_true_eq] at ha
      interval_cases pos <;> decide
    | Retreat bench =>
      simp only [Action.in_documented_range, decide_eq_true_eq] at ha
      interval_cases bench <;> decide
    | UseAbility pos =>
      simp only [Action.in_documented_range, decide_eq_true_eq] at ha
      interval_cases pos <;> decide
    | PlayTrainer i =>
      simp only [Action.in_documented_range, decide_eq_true_eq] at ha
      interval_cases i <;> decide
    | PlaySupporter i =>
      simp only [Action.in_documented_range, decide_eq_true_eq] at ha
      interval_cases i <;> decide
    | UseAttack i =>
      simp only [Action.in_documented_range, decide_eq_true_eq] at ha
      interval_cases i <;> decide
    | EndTurn => decide
    | ChooseTarget pos =>
      simp only [Action.in_documented_range, decide_eq_true_eq] at ha
      interval_cases pos <;> decide
    | ChooseOption i =>
      simp only [Action.in_documented_range, decide_eq_true_eq] at ha
      interval_cases i <;> decide
    | PromotePokemon bench =>
      simp only [Action.in_documented_range, decide_eq_true_eq] at ha
      interval_cases bench <;> decide
  refine ⟨hround, fun a b ha hb hab => ?_, fun hand board => rfl, by decide⟩
  have h1 := hround a ha
  have h2 := hround b hb
  rw [hab, h2] at h1
  exact (Option.some.injEq _ _).mp h1.symm

/-- Witness for C8 at a concrete in-range action. -/
theorem c8_action_index_bijection_witness :
    index_to_action (action_to_index (Action.EvolvePokemon 2 3)) =
      some (Action.EvolvePokemon 2 3) :=
  c8_action_index_bijection.1 (Action.EvolvePokemon 2 3) (by decide)

/-- `list_swap` preserves length. -/
theorem list_swap_length {α : Type} (l : List α) (i j : Nat) :
    (list_swap l i j).length = l.length := by
  unfold list_swap
  split <;> simp

/-- Every element of a swapped list was in the original list. -/
theorem list_swap_mem {α : Type} (l : List α) (i j : Nat) (x : α)
    (hx : x ∈ list_swap l i j) : x ∈ l := by
  unfold list_swap at hx
  split at hx
  · rename_i a b hga hgb
    rcases List.mem_or_eq_of_mem_set hx with h1 | rfl
    · rcases List.mem_or_eq_of_mem_set h1 with h2 | rfl
      · exact h2
      · exact List.get?_mem hgb
    · exact List.get?_mem hga
  · exact hx

/-- The Fisher-Yates loop preserves length. -/
theorem fisher_yates_length {α : Type} :
    ∀ (n : Nat) (r : GameRng) (l : List α),
      (fisher_yates r l n).1.length = l.length
  | 0, _, _ => rfl
  | n + 1, r, l => by
    unfold fisher_yates
    rw [fisher_yates_length n]
    exact list_swap_length l (n + 1) _

/-- Every element of a Fisher-Yates-shuffled list was in the input. -/
theorem fisher_yates_mem {α : Type} :
    ∀ (n : Nat) (r : GameRng) (l : List α) (x : α),
      x ∈ (fisher_yates r l n).1 → x ∈ l
  | 0, _, _, _, hx => hx
  | n + 1, r, l, x, hx => by
    unfold fisher_yates at hx
    exact list_swap_mem _ _ _ _ (fisher_yates_mem n _ _ x hx)

/-- `GameRng::shuffle` preserves length. -/
theorem shuffle_length {α : Type} (r : GameRng) (l : List α) :
    (r.shuffle l).1.length = l.length :=
  fisher_yates_length _ r l

/-- Every element of a shuffled list was in the input. -/
theorem shuffle_mem {α : Type} (r : GameRng) (l : List α) (x : α)
    (hx : x ∈ (r.shuffle l).1) : x ∈ l :=
  fisher_yates_mem _ r l x hx

/-- Running the S1 setup sequence from an initial state: each player
places hand card 0 as active, and the final `ConfirmSetup` draws the
last deck card for player 0 and moves to the Main phase. -/
theorem run_setup_eq (registry : EffectRegistry) (rng0 : GameRng)
    (p0 p1 : PlayerState) (c c' lc : Card)
    (hc : p0.hand.get? 0 = some c) (hc' : p1.hand.get? 0 = some c')
    (hlc : p0.deck.getLast? = some lc) :
    run_seq registry setup_actions (initial_state p0 p1, rng0) =
      ({ player0 :=
           { p0 with
             hand := p0.hand.eraseIdx 0 ++ [lc],
             deck := p0.deck.dropLast,
             active := some (PlayedCard.new c 0) },
         player1 :=
           { p1 with
             hand := p1.hand.eraseIdx 0,
             active := some (PlayedCard.new c' 0) },
         current_player := 0, turn_number := 0, phase := TurnPhase.Main,
         winner := none, first_turn := true, pending_choice := none,
         deferred_turn_end := none }, rng0) := by
  rw [List.get?_eq_getElem?] at hc hc'
  simp [setup_actions, run_seq, apply_action, apply_setup_action,
    initial_state, draw_card, GameState.current, GameState.modify_player,
    GameState.set_player, GameState.player, hc, hc', hlc]

/-- C7 (amended): with two 20-card all-Basic decks and any generator,
after `PlaceActive(0)`, `ConfirmSetup`, `PlaceActive(0)`, `ConfirmSetup`
the state is in the Main phase with player 0 to act; player 0 holds 5
cards in hand and 11 in deck (the setup-completing draw), player 1 holds
4 and 12, and both prize piles hold 3. -/
theorem c7_setup_scenario (registry : EffectRegistry) (d1 d2 : Deck)
    (rng0 : GameRng)
    (hl1 : d1.cards.length = 20) (hl2 : d2.cards.length = 20)
    (hb1 : ∀ c ∈ d1.cards, c.is_basic_pokemon = true)
    (hb2 : ∀ c ∈ d2.cards, c.is_basic_pokemon = true)
    (hr1 : ∀ c ∈ d1.cards, c.retreat_cost = some 1)
    (hr2 : ∀ c ∈ d2.cards, c.retreat_cost = some 1) :
    (run_seq registry setup_actions (new_game d1 d2 rng0)).1.phase =
        TurnPhase.Main ∧
    (run_seq registry setup_actions (new_game d1 d2 rng0)).1.current_player = 0 ∧
    (run_seq registry setup_actions (new_game d1 d2 rng0)).1.player0.hand.length
        = 5 ∧
    (run_seq registry setup_actions (new_game d1 d2 rng0)).1.player0.deck.length
        = 11 ∧
    (run_seq registry setup_actions (new_game d1 d2 rng0)).1.player1.hand.length
        = 4 ∧
    (run_seq registry setup_actions (new_game d1 d2 rng0)).1.player1.deck.length
        = 12 ∧
    (run_seq registry setup_actions (new_game d1 d2 rng0)).1.player0.prizes.length
        = 3 ∧
    (run_seq registry setup_actions (new_game d1 d2 rng0)).1.player1.prizes.length
        = 3 := by
  set p0 : PlayerState := { PlayerState.new with
      hand := (rng0.shuffle d1.cards).1.take STARTING_HAND,
      prizes := ((rng0.shuffle d1.cards).1.drop STARTING_HAND).take PRIZE_COUNT,
      deck := ((rng0.shuffle d1.cards).1.drop STARTING_HAND).drop PRIZE_COUNT }
    with hp0
  set rng1 : GameRng := (rng0.shuffle d1.cards).2 with hrng1
  set p1 : PlayerState := { PlayerState.new with
      hand := (rng1.shuffle d2.cards).1.take STARTING_HAND,
      prizes := ((rng1.shuffle d2.cards).1.drop STARTING_HAND).take PRIZE_COUNT,
      deck := ((rng1.shuffle d2.cards).1.drop STARTING_HAND).drop PRIZE_COUNT }
    with hp1
  set rng2 : GameRng := (rng1.shuffle d2.cards).2 with hrng2
  have hlen1 : (rng0.shuffle d1.cards).1.length = 20 := by
    rw [shuffle_length, hl1]
  have hlen2 : (rng1.shuffle d2.cards).1.length = 20 := by
    rw [shuffle_length, hl2]
  have hhand0 : p0.hand.length = 5 := by
    rw [hp0]
    simp [List.length_take, hlen1, STARTING_HAND]
  have hhand1 : p1.hand.length = 5 := by
    rw [hp1]
    simp [List.length_take, hlen2, STARTING_HAND]
  have hdeck0 : p0.deck.length = 12 := by
    rw [hp0]
    simp [List.length_drop, hlen1, STARTING_HAND, PRIZE_COUNT]
  have hdeck1 : p1.deck.length = 12 := by
    rw [hp1]
    simp [List.length_drop, hlen2, STARTING_HAND, PRIZE_COUNT]
  have hprize0 : p0.prizes.length = 3 := by
    rw [hp0]
    simp [List.length_take, List.length_drop, hlen1, STARTING_HAND, PRIZE_COUNT]
  have hprize1 : p1.prizes.length = 3 := by
    rw [hp1]
    simp [List.length_take, List.length_drop, hlen2, STARTING_HAND, PRIZE_COUNT]
  have hbasic0 : p0.has_basic_in_hand = true := by
    rw [PlayerState.has_basic_in_hand, List.any_eq_true]
    obtain ⟨x, hx⟩ := List.exists_mem_of_length_pos (l := p0.hand) (by omega)
    refine ⟨x, hx, ?_⟩
    apply hb1
    apply shuffle_mem rng0
    rw [hp0] at hx
    exact List.mem_of_mem_take hx
  have hbasic1 : p1.has_basic_in_hand = true := by
    rw [PlayerState.has_basic_in_hand, List.any_eq_true]
    obtain ⟨x, hx⟩ := List.exists_mem_of_length_pos (l := p1.hand) (by omega)
    refine ⟨x, hx, ?_⟩
    apply hb2
    apply shuffle_mem rng1
    rw [hp1] at hx
    exact List.mem_of_mem_take hx
  have hensure0 : ensure_basic_in_hand p0 rng2 10 = (p0, rng2) := by
    simp [ensure_basic_in_hand, hbasic0]
  have hensure1 : ensure_basic_in_hand p1 rng2 10 = (p1, rng2) := by
    simp [ensure_basic_in_hand, hbasic1]
  have hng_pre : new_game d1 d2 rng0 =
      ({ player0 := (ensure_basic_in_hand p0 rng2 10).1,
         player1 :=
           (ensure_basic_in_hand p1 (ensure_basic_in_hand p0 rng2 10).2 10).1,
         current_player := 0, turn_number := 0, phase := TurnPhase.Setup,
         winner := none, first_turn := true, pending_choice := none,
         deferred_turn_end := none },
       (ensure_basic_in_hand p1 (ensure_basic_in_hand p0 rng2 10).2 10).2) := rfl
  have hng : new_game d1 d2 rng0 = (initial_state p0 p1, rng2) := by
    rw [hng_pre]
    simp only [hensure0, hensure1]
    rfl
  obtain ⟨c, hc⟩ : ∃ c, p0.hand.get? 0 = some c := by
    rcases hh : p0.hand with _ | ⟨c, rest⟩
    · rw [hh] at hhand0
      cases hhand0
    · exact ⟨c, rfl⟩
  obtain ⟨c', hc'⟩ : ∃ c', p1.hand.get? 0 = some c' := by
    rcases hh : p1.hand with _ | ⟨c', rest⟩
    · rw [hh] at hhand1
      cases hhand1
    · exact ⟨c', rfl⟩
  obtain ⟨lc, hlcs⟩ : ∃ lc, p0.deck.getLast? = some lc := by
    have hne : p0.deck ≠ [] := List.length_pos.mp (by omega)
    have hsome := List.getLast?_isSome.mpr hne
    rcases hgl : p0.deck.getLast? with _ | lc
    · rw [hgl] at hsome
      cases hsome
    · exact ⟨lc, rfl⟩
  rw [hng, run_setup_eq registry rng2 p0 p1 c c' lc hc hc' hlcs]
  refine ⟨rfl, rfl, ?_, ?_, ?_, ?_, ?_, ?_⟩ <;>
    simp [List.length_append, List.length_eraseIdx, List.length_dropLast,
      List.length_take, List.length_drop, hlen1, hlen2, STARTING_HAND,
      PRIZE_COUNT, hhand0, hhand1, hdeck0, hdeck1, hprize0, hprize1]

/-- Witness for C7 on the concrete test decks and generator. -/
theorem c7_setup_scenario_witness :
    (run_seq EffectRegistry.empty setup_actions
      (new_game test_deck test_deck zero_rng)).1.phase = TurnPhase.Main :=
  (c7_setup_scenario EffectRegistry.empty test_deck test_deck zero_rng
    (by decide) (by decide) (by decide) (by decide) (by decide) (by decide)).1

/-- `step_of_winner` never produces `InvalidAction`. -/
theorem step_of_winner_not_invalid (s : GameState) :
    (step_of_winner s).is_invalid = false := by
  unfold step_of_winner
  cases hw : s.winner <;> rfl

/-- A pair listed by `all_pokemon` is what `get_pokemon` returns at that
position. -/
theorem all_pokemon_get (p : PlayerState) (pos : Nat) (pk : PlayedCard)
    (h : (pos, pk) ∈ p.all_pokemon) : p.get_pokemon pos = some pk := by
  unfold PlayerState.all_pokemon at h
  rcases List.mem_append.mp h with h1 | h2
  · rcases ha : p.active with _ | act
    · rw [ha] at h1
      cases h1
    · rw [ha] at h1
      rcases List.mem_singleton.mp h1 with h1
      injection h1 with hpos hpk
      subst hpos
      subst hpk
      simpa [PlayerState.get_pokemon] using ha
  · rcases List.mem_filterMap.mp h2 with ⟨⟨i, b⟩, hmem, heq⟩
    rcases b with _ | pk'
    · cases heq
    · have heq' : some (i + 1, pk') = some (pos, pk) := heq
      injection heq' with heq''
      injection heq'' with hpos hpk
      subst hpk
      rcases hpos with rfl
      have hget := List.mem_enum_iff_getElem?.mp hmem
      simp only [PlayerState.get_pokemon, Nat.add_sub_cancel]
      have hne : i + 1 ≠ 0 := by omega
      rw [if_neg hne]
      rw [List.get?_eq_getElem?]
      simp [hget]

/-- A bench of full length with fewer than `MAX_BENCH` occupants has an
empty slot. -/
theorem find_empty_bench_of_count (p : PlayerState)
    (hlen : p.bench.length = MAX_BENCH) (hcount : p.bench_count < MAX_BENCH) :
    ∃ slot, p.find_empty_bench = some slot := by
  rcases hf : p.find_empty_bench with _ | slot
  · exfalso
    have hall := List.findIdx?_eq_none_iff.mp hf
    have heq : p.bench.filter (fun b => b.isSome) = p.bench := by
      rw [List.filter_eq_self]
      intro b hb
      have := hall b hb
      rcases b with _ | pk
      · cases this
      · rfl
    rw [PlayerState.bench_count, heq, hlen] at hcount
    omega
  · exact ⟨slot, rfl⟩

/-- `attack_finish` always reports the winner-derived step outcome. -/
theorem attack_finish_not_invalid (registry : EffectRegistry)
    (current_player : Nat) (s5 : GameState) (rng1 : GameRng) :
    (attack_finish registry current_player s5 rng1).2.2.is_invalid = false := by
  unfold attack_finish
  by_cases hc : s5.pending_choice.isSome
  · simp only [hc, if_true]
    exact step_of_winner_not_invalid _
  · simp only [hc, if_false, Bool.false_eq_true]
    rcases hy : end_turn registry s5 rng1 with ⟨s6, rng2⟩
    exact step_of_winner_not_invalid _

/-- The body of `resolve_attack` always reports the winner-derived step
outcome, never an invalid action. -/
theorem resolve_attack_body_not_invalid (registry : EffectRegistry)
    (s : GameState) (card_id : String) (base_damage attack_idx : Nat)
    (rng : GameRng) :
    (resolve_attack_body registry s card_id base_damage attack_idx
      rng).2.2.is_invalid = false := by
  unfold resolve_attack_body
  rcases hx : execute_attack_effects registry s card_id attack_idx rng
    with ⟨dm, s1, rng1⟩
  dsimp only
  exact attack_finish_not_invalid registry s.current_player _ rng1

/-- Past its two entry checks, `resolve_attack` cannot report an invalid
action. -/
theorem resolve_attack_not_invalid (registry : EffectRegistry) (s : GameState)
    (attack_idx : Nat) (rng : GameRng) (pk : PlayedCard) (atk : Attack)
    (hact : (s.player s.current_player).active = some pk)
    (hatk : pk.data.card.attacks.get? attack_idx = some atk) :
    (resolve_attack registry s attack_idx rng).2.2.is_invalid = false := by
  unfold resolve_attack
  simp only [hact, hatk]
  exact resolve_attack_body_not_invalid registry s pk.data.card.id atk.damage
    attack_idx rng

/-- `play_trainer_card` with a valid hand index never reports an invalid
action. -/
theorem play_trainer_card_not_invalid (registry : EffectRegistry)
    (s : GameState) (hand_idx : Nat) (is_sup : Bool) (rng : GameRng) (c : Card)
    (hget : (s.current).hand.get? hand_idx = some c) :
    (play_trainer_card registry s hand_idx is_sup rng).2.2.is_invalid = false := by
  unfold play_trainer_card
  simp only [hget]
  split
  · split
    · split <;> rfl
    · rfl
  · rcases hfold : (registry.get_trainer_effects c.id).foldl _ _ with ⟨s4, rng4, force⟩
    dsimp only
    split
    · rcases hend : end_turn registry s4 rng4 with ⟨s5, rng5⟩
      rfl
    · rfl

/-- C2 (amended): the forward direction of legality closure.  For a
state whose benches have the representation length `MAX_BENCH` and whose
pending choice, if any, is `PromoteFromBench` (both hold in every
reachable state), every action produced by `legal_actions` is accepted
by `apply_action`: the result is never `InvalidAction`.  (The reverse
direction is false: see the counterexample.) -/
theorem c2_legal_actions_accepted (registry : EffectRegistry) (s : GameState)
    (a : Action) (rng : GameRng)
    (hb0 : s.player0.bench.length = MAX_BENCH)
    (hb1 : s.player1.bench.length = MAX_BENCH)
    (hpend : pending_promote_only s = true)
    (ha : a ∈ legal_actions s) :
    (apply_action registry s a rng).2.2.is_invalid = false := by
  have hbl : (s.current).bench.length = MAX_BENCH := by
    unfold GameState.current GameState.player
    split
    · exact hb0
    · exact hb1
  unfold legal_actions at ha
  unfold apply_action
  rcases hph : s.phase
  case DrawCard => rw [hph] at ha; simp at ha
  case Attack => rw [hph] at ha; simp at ha
  case BetweenTurns => rw [hph] at ha; simp at ha
  case GameOver => rw [hph] at ha; simp at ha
  case Setup =>
    rw [hph] at ha
    dsimp only at ha ⊢
    unfold legal_actions_setup at ha
    by_cases hact : (s.current).active.isNone
    · rw [if_pos hact] at ha
      rcases List.mem_filterMap.mp ha with ⟨⟨i, c⟩, hmem, heq⟩
      have hgi : (s.player s.current_player).hand[i]? = some c :=
        List.mem_enum_iff_getElem?.mp hmem
      have heq' : (if c.is_basic_pokemon then some (Action.PlaceActive i)
          else none) = some a := heq
      by_cases hbasic : c.is_basic_pokemon
      · rw [if_pos hbasic] at heq'
        injection heq' with heq''
        subst heq''
        simp only [apply_setup_action, List.get?_eq_getElem?, hgi,
          StepResult.is_invalid]
      · rw [if_neg hbasic] at heq'
        cases heq'
    · rw [if_neg hact] at ha
      rcases List.mem_append.mp ha with h | h
      · by_cases hbc : (s.current).bench_count < MAX_BENCH
        · rw [if_pos hbc] at h
          rcases List.mem_filterMap.mp h with ⟨⟨i, c⟩, hmem, heq⟩
          have hgi : (s.player s.current_player).hand[i]? = some c :=
            List.mem_enum_iff_getElem?.mp hmem
          have heq' : (if c.is_basic_pokemon then some (Action.PlaceBench i)
              else none) = some a := heq
          by_cases hbasic : c.is_basic_pokemon
          · rw [if_pos hbasic] at heq'
            injection heq' with heq''
            subst heq''
            obtain ⟨slot, hslot⟩ :=
              find_empty_bench_of_count (s.player s.current_player) hbl hbc
            simp only [apply_setup_action, List.get?_eq_getElem?, hgi, hslot,
              StepResult.is_invalid]
          · rw [if_neg hbasic] at heq'
            cases heq'
        · rw [if_neg hbc] at h
          cases h
      · rcases List.mem_singleton.mp h with rfl
        unfold apply_setup_action
        dsimp only
        split <;> rfl
  case EffectChoice =>
    rw [hph] at ha
    dsimp only at ha ⊢
    unfold legal_actions_effect_choice at ha
    unfold pending_promote_only at hpend
    rcases hpc : s.pending_choice with _ | pc
    · rw [hpc] at ha
      cases ha
    · rcases pc with _ | ⟨vt, d⟩ | ⟨n, d⟩ | ⟨pp, n⟩
      · rw [hpc] at ha
        rcases List.mem_filterMap.mp ha with ⟨⟨i, b⟩, hmem, heq⟩
        have heq' : (if b.isSome then some (Action.PromotePokemon i)
            else none) = some a := heq
        by_cases hsome : b.isSome
        · rw [if_pos hsome] at heq'
          injection heq' with heq''
          subst heq''
          unfold apply_effect_choice
          rw [hpc]
          dsimp only
          exact step_of_winner_not_invalid _
        · rw [if_neg hsome] at heq'
          cases heq'
      · rw [hpc] at hpend
        cases hpend
      · rw [hpc] at hpend
        cases hpend
      · rw [hpc] at hpend
        cases hpend
  case Main =>
    rw [hph] at ha
    dsimp only at ha ⊢
    unfold legal_actions_main at ha
    simp only [List.mem_append] at ha
    rcases ha with ((((((((h | h) | h) | h) | h) | h) | h) | h) | h)
    · -- PlayPokemonToBench
      by_cases hbc : (s.current).bench_count < MAX_BENCH
      · rw [if_pos hbc] at h
        rcases List.mem_filterMap.mp h with ⟨⟨i, c⟩, hmem, heq⟩
        have hgi : (s.current).hand[i]? = some c :=
          List.mem_enum_iff_getElem?.mp hmem
        have heq' : (if c.is_basic_pokemon
            then some (Action.PlayPokemonToBench i) else none) = some a := heq
        by_cases hbasic : c.is_basic_pokemon
        · rw [if_pos hbasic] at heq'
          injection heq' with heq''
          subst heq''
          obtain ⟨slot, hslot⟩ :=
            find_empty_bench_of_count (s.current) hbl hbc
          simp only [apply_main_action, List.get?_eq_getElem?, hgi, hslot,
            StepResult.is_invalid]
        · rw [if_neg hbasic] at heq'
          cases heq'
      · rw [if_neg hbc] at h
        cases h
    · -- EvolvePokemon
      rcases List.mem_flatMap.mp h with ⟨⟨i, c⟩, hmem, hin⟩
      have hgi : (s.current).hand[i]? = some c :=
        List.mem_enum_iff_getElem?.mp hmem
      unfold evolve_actions_for at hin
      rcases hev : c.is_evolution
      · rw [hev] at hin
        simp at hin
      · rw [hev] at hin
        simp only [Bool.not_true, Bool.false_eq_true, if_false] at hin
        rcases hef : c.evolves_from with _ | ev
        · rw [hef] at hin
          simp at hin
        · rw [hef] at hin
          rcases List.mem_filterMap.mp hin with ⟨⟨pos, pk⟩, hpm, heq⟩
          have hget : (s.current).get_pokemon pos = some pk :=
            all_pokemon_get _ _ _ hpm
          dsimp only at heq
          split at heq
          · cases heq
          · split at heq
            · cases heq
            · split at heq
              · injection heq with heq''
                subst heq''
                have hget1 : ((s.modify_player s.current_player fun p =>
                    { p with hand := p.hand.eraseIdx i }).current).get_pokemon
                      pos = some pk := by
                  unfold GameState.current
                  rw [(GameState.fields_modify_player s s.current_player _).1,
                    GameState.player_modify_self,
                    PlayerState.get_pokemon_hand_update]
                  exact hget
                simp only [apply_main_action, List.get?_eq_getElem?, hgi,
                  hget1, StepResult.is_invalid]
              · cases heq
    · -- SetEnergyZoneType
      by_cases hz : (s.current).energy_zone_type.isNone
      · rw [if_pos hz] at h
        rcases List.mem_map.mp h with ⟨e, hmem, heq⟩
        subst heq
        rfl
      · rw [if_neg hz] at h
        cases h
    · -- AttachEnergy
      by_cases hcond : (!(s.current).energy_generated &&
          (s.current).energy_zone_type.isSome) = true
      · rw [if_pos hcond] at h
        rcases List.mem_map.mp h with ⟨⟨pos, pk⟩, hpm, heq⟩
        have heq' : Action.AttachEnergy pos = a := heq
        subst heq'
        have hget : (s.current).get_pokemon pos = some pk :=
          all_pokemon_get _ _ _ hpm
        rcases Bool.and_eq_true_iff.mp hcond with ⟨hgen, hzone⟩
        have hgen' : (s.current).energy_generated = false := by
          simpa using hgen
        rcases hz : (s.current).energy_zone_type with _ | et
        · rw [hz] at hzone
          simp at hzone
        · simp only [apply_main_action, hgen', hz, hget, Bool.false_eq_true,
            if_false, StepResult.is_invalid]
      · rw [if_neg hcond] at h
        cases h
    · -- Retreat
      by_cases hrt : (!(s.current).retreated_this_turn) = true
      · rw [if_pos hrt] at h
        rcases hac : (s.current).active with _ | act
        · rw [hac] at h
          cases h
        · rw [hac] at h
          dsimp only at h
          by_cases hst : (!act.has_status StatusCondition.Paralyzed &&
              !act.has_status StatusCondition.Asleep) = true
          · rw [if_pos hst] at h
            by_cases hcost : act.data.card.retreat_cost.getD 0 ≤
                act.data.attached_energy.length
            · rw [if_pos hcost] at h
              rcases List.mem_filterMap.mp h with ⟨⟨idx, b⟩, hbm, heq⟩
              have hbi : (s.current).bench[idx]? = some b :=
                List.mem_enum_iff_getElem?.mp hbm
              have heq' : (if b.isSome then some (Action.Retreat idx)
                  else none) = some a := heq
              by_cases hbs : b.isSome
              · rw [if_pos hbs] at heq'
                injection heq' with heq''
                subst heq''
                have hidx : idx < MAX_BENCH := by
                  by_contra hge
                  push_neg at hge
                  have hlen : (s.current).bench.length ≤ idx := by
                    rw [hbl]; exact hge
                  rw [List.getElem?_eq_none hlen] at hbi
                  cases hbi
                have hbind : ((s.current).bench.get? idx).bind id = some
                    (b.get hbs) := by
                  rw [List.get?_eq_getElem?, hbi]
                  rcases b with _ | pk
                  · cases hbs
                  · rfl
                have hrt' : (s.current).retreated_this_turn = false := by
                  simpa using hrt
                have hno : ¬(MAX_BENCH ≤ idx ∨
                    ((((s.current).bench.get? idx).bind id).isNone = true)) := by
                  rw [hbind]
                  intro hcontra
                  rcases hcontra with hcontra | hcontra
                  · omega
                  · cases hcontra
                have hnl : ¬(act.data.attached_energy.length <
                    act.data.card.retreat_cost.getD 0) := by omega
                simp only [apply_main_action, hrt', Bool.false_eq_true,
                  if_false, if_neg hno, hac, if_neg hnl,
                  StepResult.is_invalid]
              · rw [if_neg hbs] at heq'
                cases heq'
            · rw [if_neg hcost] at h
              cases h
          · rw [if_neg hst] at h
            cases h
      · rw [if_neg hrt] at h
        cases h
    · -- UseAbility
      rcases List.mem_filterMap.mp h with ⟨⟨pos, pk⟩, hpm, heq⟩
      have hget : (s.current).get_pokemon pos = some pk :=
        all_pokemon_get _ _ _ hpm
      have heq' : (if pk.data.card.ability.isSome &&
          !pk.data.temp_flags.used_ability then some (Action.UseAbility pos)
          else none) = some a := heq
      by_cases hc : (pk.data.card.ability.isSome &&
          !pk.data.temp_flags.used_ability) = true
      · rw [if_pos hc] at heq'
        injection heq' with heq''
        subst heq''
        simp only [apply_main_action, hget, Option.map_some',
          StepResult.is_invalid]
      · rw [if_neg hc] at heq'
        cases heq'
    · -- PlayTrainer / PlaySupporter
      rcases List.mem_filterMap.mp h with ⟨⟨i, c⟩, hmem, heq⟩
      have hgi : (s.current).hand.get? i = some c := by
        rw [List.get?_eq_getElem?]
        exact List.mem_enum_iff_getElem?.mp hmem
      rcases hct : c.card_type
      case Pokemon =>
        rw [hct] at heq
        cases heq
      case Item =>
        rw [hct] at heq
        injection heq with heq''
        subst heq''
        exact play_trainer_card_not_invalid registry s i false rng c hgi
      case Supporter =>
        rw [hct] at heq
        dsimp only at heq
        split at heq
        · injection heq with heq''
          subst heq''
          exact play_trainer_card_not_invalid registry s i true rng c hgi
        · cases heq
      case Tool =>
        rw [hct] at heq
        injection heq with heq''
        subst heq''
        exact play_trainer_card_not_invalid registry s i false rng c hgi
      case Fossil =>
        rw [hct] at heq
        injection heq with heq''
        subst heq''
        exact play_trainer_card_not_invalid registry s i false rng c hgi
    · -- UseAttack
      by_cases hft : (!s.first_turn) = true
      · rw [if_pos hft] at h
        rcases hac : (s.current).active with _ | act
        · rw [hac] at h
          cases h
        · rw [hac] at h
          dsimp only at h
          by_cases hpar : (!act.has_status StatusCondition.Paralyzed) = true
          · rw [if_pos hpar] at h
            rcases List.mem_filterMap.mp h with ⟨⟨k, atk⟩, harm, heq⟩
            have hka : act.data.card.attacks[k]? = some atk :=
              List.mem_enum_iff_getElem?.mp harm
            have heq' : (if act.data.card.can_use_attack k
                act.data.attached_energy then some (Action.UseAttack k)
                else none) = some a := heq
            by_cases hcu : act.data.card.can_use_attack k
                act.data.attached_energy
            · rw [if_pos hcu] at heq'
              injection heq' with heq''
              subst heq''
              have hft' : s.first_turn = false := by simpa using hft
              have hka' : act.data.card.attacks.get? k = some atk := by
                rw [List.get?_eq_getElem?]
                exact hka
              simp only [apply_main_action, hft', Bool.false_eq_true,
                if_false]
              exact resolve_attack_not_invalid registry s k rng act atk hac
                hka'
            · rw [if_neg hcu] at heq'
              cases heq'
          · rw [if_neg hpar] at h
            cases h
      · rw [if_neg hft] at h
        cases h
    · -- EndTurn
      rcases List.mem_singleton.mp h with rfl
      rfl

/-- Witness for C2 at a concrete reachable state: `EndTurn` is legal after
setup and is accepted. -/
theorem c2_legal_actions_accepted_witness :
    post_setup_state.player0.bench.length = MAX_BENCH ∧
    post_setup_state.player1.bench.length = MAX_BENCH ∧
    pending_promote_only post_setup_state = true ∧
    Action.EndTurn ∈ legal_actions post_setup_state ∧
    (apply_action EffectRegistry.empty post_setup_state Action.EndTurn
      zero_rng).2.2.is_invalid = false :=
  ⟨by decide, by decide, by decide, by decide,
   c2_legal_actions_accepted EffectRegistry.empty post_setup_state
     Action.EndTurn zero_rng (by decide) (by decide) (by decide) (by decide)⟩

end TCG
